import Mathlib

/-!
# SSD object detector tensor decoder (`gstssdobjectdetector.c`)

A shallow embedding of the decoder of
`subprojects/gst-plugins-bad/ext/onnx/decoders/gstssdobjectdetector.c`
and the properties proved about it.

Conventions of the embedding:

* `guint`/`guint32`/`gint` are 32 bits wide, `gsize` is 64 bits wide; unsigned
  arithmetic wraps, and `int` arithmetic wraps too (two's complement).
* A C `float` is an IEEE 754 binary32 value, kept as its bit pattern (`F32`);
  arithmetic is evaluated in binary32 with round-to-nearest-even.
* Tensor bytes are assembled into 32-bit words in little-endian order.
* A pointer with a length (`GstMapInfo.data`/`size`, `GstTensorMeta.tensor`/
  `num_tensors`) is a total function giving the content of memory at every
  offset, next to the length that the code is allowed to use.
* A `GQuark` is the interned string itself; quark `0` is `none`.
-/

namespace SsdObjectDetector

/-! ## IEEE 754 binary32 -/

/-- A C `float`: the bit pattern of an IEEE 754 binary32 value. -/
structure F32 where
  bits : Nat
  deriving DecidableEq, Repr

namespace F32

/-- Sign bit. -/
def sign (x : F32) : Bool := x.bits / 2 ^ 31 % 2 == 1

/-- Biased exponent field. -/
def expo (x : F32) : Nat := x.bits / 2 ^ 23 % 256

/-- Fraction field. -/
def frac (x : F32) : Nat := x.bits % 2 ^ 23

def isNaN (x : F32) : Bool := x.expo == 255 && x.frac != 0

def isInf (x : F32) : Bool := x.expo == 255 && x.frac == 0

/-- Magnitude in units of `2^-149` (the smallest subnormal).  Every finite
binary32 value is an integer in these units; an infinity gets `2^277`, which is
above every finite magnitude. -/
def mag (x : F32) : Nat :=
  if x.expo = 0 then x.frac else (2 ^ 23 + x.frac) * 2 ^ (x.expo - 1)

/-- Signed value in units of `2^-149` (meaningful when `x` is not a NaN). -/
def toInt (x : F32) : Int := if x.sign then -(x.mag : Int) else (x.mag : Int)

def isZero (x : F32) : Bool := x.expo == 0 && x.frac == 0

/-- C `a < b` on floats: false as soon as one operand is a NaN. -/
def lt (a b : F32) : Bool := !a.isNaN && !b.isNaN && decide (a.toInt < b.toInt)

/-- C `a > b` on floats. -/
def gt (a b : F32) : Bool := lt b a

/-- C `a <= b` on floats: false as soon as one operand is a NaN. -/
def le (a b : F32) : Bool := !a.isNaN && !b.isNaN && decide (a.toInt ≤ b.toInt)

/-- C `a >= b` on floats. -/
def ge (a b : F32) : Bool := le b a

def signBit (neg : Bool) : Nat := if neg then 2 ^ 31 else 0

def zero : F32 := ⟨0⟩

def one : F32 := ⟨0x3F800000⟩

def nan : F32 := ⟨0x7FC00000⟩

def inf (neg : Bool) : F32 := ⟨signBit neg + 0x7F800000⟩

/-- Divide `a` by `2^s`, rounding to nearest, ties to even. -/
def rne (a s : Nat) : Nat :=
  let q := a / 2 ^ s
  let r := a % 2 ^ s
  let half := 2 ^ (s - 1)
  if s = 0 then a
  else if r > half || (r == half && q % 2 == 1) then q + 1 else q

/-- Position of the highest set bit, by halving (`fuel` bounds the number of
halvings). -/
def log2Aux : Nat → Nat → Nat → Nat
  | 0, _, acc => acc
  | fuel + 1, a, acc => if a < 2 then acc else log2Aux fuel (a / 2) (acc + 1)

/-- Floor of the binary logarithm (`0` for `0`). -/
def log2 (a : Nat) : Nat := log2Aux a a 0

/-- Round the exact value `(-1)^neg * a / 2^scale` to binary32
(round-to-nearest-even, overflow to infinity, gradual underflow). -/
def round (neg : Bool) (a scale : Nat) : F32 :=
  if a = 0 then ⟨signBit neg⟩
  else
    let q : Int := max ((log2 a : Int) - scale - 23) (-149)
    let s : Int := scale + q
    let n : Nat := if s ≤ 0 then a * 2 ^ (-s).toNat else rne a s.toNat
    let b : Nat := (q + 149).toNat * 2 ^ 23 + n
    if b ≥ 0x7F800000 then inf neg else ⟨signBit neg + b⟩

/-- Conversion of an unsigned integer (`guint32`, `gsize`) to `float`. -/
def ofNat (n : Nat) : F32 := round false n 0

/-- Conversion of a `gint` to `float`. -/
def ofInt (i : Int) : F32 := round (decide (i < 0)) i.natAbs 0

/-- C `a * b` on floats. -/
def mul (a b : F32) : F32 :=
  if a.isNaN || b.isNaN then nan
  else if a.isInf || b.isInf then
    if a.isZero || b.isZero then nan else inf (a.sign != b.sign)
  else round (a.sign != b.sign) (a.mag * b.mag) 298

/-- C `a - b` on floats. -/
def sub (a b : F32) : F32 :=
  if a.isNaN || b.isNaN then nan
  else if a.isInf then
    if b.isInf && (a.sign == b.sign) then nan else a
  else if b.isInf then inf (!b.sign)
  else
    let d : Int := a.toInt - b.toInt
    if d = 0 then ⟨signBit (a.sign && !b.sign)⟩
    else round (decide (d < 0)) d.natAbs 149

/-- Truncation toward zero of a finite value, as a mathematical integer. -/
def trunc (x : F32) : Int :=
  if x.sign then -((x.mag / 2 ^ 149 : Nat) : Int) else ((x.mag / 2 ^ 149 : Nat) : Int)

end F32

/-- What the target does where C leaves a float-to-integer conversion
undefined (NaN, infinity, or a truncated value that the integer type cannot
hold).  On x86-64 with SSE, `invalid_gint` is constantly `-2^31`. -/
structure Target where
  invalid_gint : F32 → Int
  invalid_guint32 : F32 → Nat

/-- What gcc-built code does on x86-64.  For `gint` the SSE conversion gives
the "integer indefinite" `-2^31`.  For `guint32` the value is converted with
the 64-bit signed instruction and the low 32 bits are kept (`-1.0` gives
`4294967295`, `5e9` gives `705032704`); when the 64-bit conversion is itself
out of range its indefinite result `-2^63` leaves `0`. -/
def sseTarget : Target :=
  ⟨fun _ => -2 ^ 31,
    fun x =>
      if x.isNaN || x.isInf then 0
      else if -2 ^ 63 ≤ x.trunc ∧ x.trunc < 2 ^ 63 then (x.trunc % 2 ^ 32).toNat
      else 0⟩

/-- Conversion `float` to `gint`: truncation toward zero. -/
def F32.toGint (T : Target) (x : F32) : Int :=
  if x.isNaN || x.isInf then T.invalid_gint x
  else if -2 ^ 31 ≤ x.trunc ∧ x.trunc < 2 ^ 31 then x.trunc
  else T.invalid_gint x

/-- Conversion `float` to `guint32`: truncation toward zero. -/
def F32.toGuint32 (T : Target) (x : F32) : Nat :=
  if x.isNaN || x.isInf then T.invalid_guint32 x % 2 ^ 32
  else if 0 ≤ x.trunc ∧ x.trunc < 2 ^ 32 then x.trunc.toNat
  else T.invalid_guint32 x % 2 ^ 32

/-- GLib `CLAMP (x, 0, 1)` on a float:
`((x) > (1)) ? (1) : (((x) < (0)) ? (0) : (x))`. -/
def CLAMP01 (x : F32) : F32 :=
  if F32.gt x (F32.ofInt 1) then F32.ofInt 1
  else if F32.lt x (F32.ofInt 0) then F32.ofInt 0
  else x

/-! ## Data model -/

/-- A `GQuark`: an interned string, identified with the string itself; the
quark `0` (no string) is `none`. -/
abbrev GQuark := Option String

/-- Interning a string never gives the quark `0`. -/
def g_quark_from_string (s : String) : GQuark := some s

def GST_MODEL_OBJECT_DETECTOR_BOXES : String := "Gst.Model.ObjectDetector.Boxes"

def GST_MODEL_OBJECT_DETECTOR_SCORES : String := "Gst.Model.ObjectDetector.Scores"

def GST_MODEL_OBJECT_DETECTOR_NUM_DETECTIONS : String :=
  "Gst.Model.ObjectDetector.NumDetections"

def GST_MODEL_OBJECT_DETECTOR_CLASSES : String := "Gst.Model.ObjectDetector.Classes"

def GST_SSD_OBJECT_DETECTOR_DEFAULT_SCORE_THRESHOLD : F32 := ⟨0x3E99999A⟩

def GST_SSD_OBJECT_DETECTOR_DEFAULT_SIZE_THRESHOLD : F32 := ⟨0x3F666666⟩

/-- Declared element type of a tensor; the decoder tells `FLOAT32` and `UINT32`
from all the others. -/
inductive GstTensorDataType where
  | GST_TENSOR_TYPE_FLOAT32
  | GST_TENSOR_TYPE_UINT32
  | other (code : Nat)
  deriving DecidableEq, Repr

/-- A mapped view of a buffer: `memory` says whether the `memory` pointer is
set, `data i` is the byte found at `data + i`, and `size` is the length of the
view. -/
structure GstMapInfo where
  memory : Bool
  data : Nat → Nat
  size : Nat

def GST_MAP_INFO_INIT : GstMapInfo := ⟨false, fun _ => 0, 0⟩

/-- The buffer that carries a tensor's bytes, described by what mapping it for
reading gives: `none` when `gst_buffer_map` returns `FALSE`, otherwise the
filled-in map info. -/
structure GstBuffer where
  map : Option GstMapInfo

def gst_buffer_map (buffer : GstBuffer) : Option GstMapInfo := buffer.map

structure GstTensor where
  id : GQuark
  data_type : GstTensorDataType
  data : GstBuffer

/-- A tensor group: `tensor i` is what is found at `tensor[i]`; the entries of
the group are those with `0 ≤ i < num_tensors`. -/
structure GstTensorMeta where
  num_tensors : Nat
  tensor : Int → GstTensor

def GST_TENSOR_MISSING_ID : Int := -1

/-- Modelled from the spec: `gst_tensor_meta_get_index_from_id` of
`tensor/gsttensormeta.h`, a linear scan over the tags of the group's tensors
for an exact identifier, giving the position of the first match or
`GST_TENSOR_MISSING_ID`. -/
def gst_tensor_meta_get_index_from_id (meta : GstTensorMeta) (id : GQuark) : Int :=
  match List.find? (fun (i : Nat) => (meta.tensor (Int.ofNat i)).id == id)
      (List.range meta.num_tensors) with
  | some i => Int.ofNat i
  | none => GST_TENSOR_MISSING_ID

structure GstVideoInfo where
  width : Int
  height : Int

structure GstSsdObjectDetector where
  label_file : Option String
  labels : Option (List GQuark)
  score_threshold : F32
  size_threshold : F32
  video_info : GstVideoInfo

/-- An object-detection record as handed to
`gst_analytics_relation_meta_add_od_mtd`. -/
structure GstAnalyticsODMtd where
  label : GQuark
  x : Int
  y : Int
  w : Int
  h : Int
  score : F32
  deriving DecidableEq, Repr

/-- The output sink: the detections held by the frame's relation meta, oldest
first. -/
abbrev GstAnalyticsRelationMeta := List GstAnalyticsODMtd

/-- Appending a detection to the sink (taken to succeed). -/
def gst_analytics_relation_meta_add_od_mtd (rmeta : GstAnalyticsRelationMeta)
    (label : GQuark) (x y w h : Int) (score : F32) : GstAnalyticsRelationMeta :=
  rmeta ++ [⟨label, x, y, w, h, score⟩]

/-! ## Typed tensor reads (`DEFINE_GET_FUNC`) -/

/-- Conversion of an `int` or of a wider unsigned value to `guint`. -/
def to_guint (n : Nat) : Nat := n % 2 ^ 32

/-- The 32-bit word at `((guint32 *) map->data)[index]`. -/
def load32 (map : GstMapInfo) (index : Nat) : Nat :=
  map.data (4 * index) % 256 + 2 ^ 8 * (map.data (4 * index + 1) % 256)
    + 2 ^ 16 * (map.data (4 * index + 2) % 256) + 2 ^ 24 * (map.data (4 * index + 3) % 256)

/-- The guard `sizeof(*f) * (index + 1) > map->size`: `index + 1` is a `guint`
sum, the product is a `gsize`. -/
def index_past_size (map : GstMapInfo) (index : Nat) : Bool :=
  decide (4 * to_guint (index + 1) > map.size)

/-- `get_guint32_at_index`: `none` is the return value `FALSE`, `some v` is
`TRUE` with `*out = v`. -/
def get_guint32_at_index (T : Target) (tensor : GstTensor) (map : GstMapInfo)
    (index : Nat) : Option Nat :=
  match tensor.data_type with
  | .GST_TENSOR_TYPE_FLOAT32 =>
    if index_past_size map index then none
    else some (F32.toGuint32 T ⟨load32 map index⟩)
  | .GST_TENSOR_TYPE_UINT32 =>
    if index_past_size map index then none
    else some (load32 map index)
  | .other _ => none

/-- `get_float_at_index`: `none` is the return value `FALSE`, `some v` is
`TRUE` with `*out = v`. -/
def get_float_at_index (tensor : GstTensor) (map : GstMapInfo)
    (index : Nat) : Option F32 :=
  match tensor.data_type with
  | .GST_TENSOR_TYPE_FLOAT32 =>
    if index_past_size map index then none
    else some ⟨load32 map index⟩
  | .GST_TENSOR_TYPE_UINT32 =>
    if index_past_size map index then none
    else some (F32.ofNat (load32 map index))
  | .other _ => none

/-! ## Label file (`read_labels`, `gst_ssd_object_detector_set_property`) -/

/-- What reading a path gives: `g_file_read` fails (`unopenable`), or the
stream hands out `lines`, one per call of `g_data_input_stream_read_line`,
before that call returns `NULL`, with or without an `error` set. -/
inductive GFileContent where
  | unopenable
  | stream (lines : List String) (error : Bool)

/-- The `while` loop of `read_labels`: every line read is interned and
appended to the array. -/
def read_lines : List String → List GQuark → List GQuark
  | [], array => array
  | line :: rest, array => read_lines rest (array ++ [g_quark_from_string line])

/-- `read_labels`: `none` is the return value `NULL`. -/
def read_labels (file : GFileContent) : Option (List GQuark) :=
  match file with
  | .unopenable => none
  | .stream lines error =>
    let array := read_lines lines []
    if error then none
    else if array.length = 0 then none
    else some array

/-- A property write: the property id with the value it carries. -/
inductive PropertyWrite where
  | PROP_LABEL_FILE (filename : String)
  | PROP_SCORE_THRESHOLD (value : F32)
  | PROP_SIZE_THRESHOLD (value : F32)
  | invalid (prop_id : Nat)

/-- `gst_ssd_object_detector_set_property`; `fs` gives the content found at
each path. -/
def gst_ssd_object_detector_set_property (fs : String → GFileContent)
    (self : GstSsdObjectDetector) (write : PropertyWrite) : GstSsdObjectDetector :=
  match write with
  | .PROP_LABEL_FILE filename =>
    match read_labels (fs filename) with
    | some labels => { self with label_file := some filename, labels := some labels }
    | none => self
  | .PROP_SCORE_THRESHOLD value => { self with score_threshold := value }
  | .PROP_SIZE_THRESHOLD value => { self with size_threshold := value }
  | .invalid _ => self

/-! ## Choice of the tensor group (`gst_ssd_object_detector_get_tensor_meta`) -/

/-- A meta attached to a video buffer: a tensor meta, or a meta of another
API type. -/
inductive GstMeta where
  | tensor_meta (m : GstTensorMeta)
  | other

/-- A video buffer: its metas in iteration order, and the detections of its
analytics relation meta when it has one. -/
structure GstVideoBuffer where
  metas : List GstMeta
  rmeta : Option GstAnalyticsRelationMeta

/-- The `while` loop of `gst_ssd_object_detector_get_tensor_meta` over the
metas that are left to iterate. -/
def find_tensor_meta : List GstMeta → Option GstTensorMeta
  | [] => none
  | .other :: rest => find_tensor_meta rest
  | .tensor_meta tensor_meta :: rest =>
    if tensor_meta.num_tensors ≠ 3 ∧ tensor_meta.num_tensors ≠ 4 then find_tensor_meta rest
    else
      let boxesIndex := gst_tensor_meta_get_index_from_id tensor_meta
        (g_quark_from_string GST_MODEL_OBJECT_DETECTOR_BOXES)
      let scoresIndex := gst_tensor_meta_get_index_from_id tensor_meta
        (g_quark_from_string GST_MODEL_OBJECT_DETECTOR_SCORES)
      let numDetectionsIndex := gst_tensor_meta_get_index_from_id tensor_meta
        (g_quark_from_string GST_MODEL_OBJECT_DETECTOR_NUM_DETECTIONS)
      let clasesIndex := gst_tensor_meta_get_index_from_id tensor_meta
        (g_quark_from_string GST_MODEL_OBJECT_DETECTOR_CLASSES)
      if boxesIndex = GST_TENSOR_MISSING_ID ∨ scoresIndex = GST_TENSOR_MISSING_ID
          ∨ numDetectionsIndex = GST_TENSOR_MISSING_ID then find_tensor_meta rest
      else if tensor_meta.num_tensors = 4 ∧ clasesIndex = GST_TENSOR_MISSING_ID then
        find_tensor_meta rest
      else some tensor_meta

/-- `gst_buffer_get_meta (buf, GST_TENSOR_META_API_TYPE)` as a test: is there a
tensor meta at all. -/
def has_tensor_meta (buf : GstVideoBuffer) : Bool :=
  buf.metas.any (fun m => match m with | .tensor_meta _ => true | .other => false)

def gst_ssd_object_detector_get_tensor_meta (buf : GstVideoBuffer) : Option GstTensorMeta :=
  if !has_tensor_meta buf then none
  else find_tensor_meta buf.metas

/-! ## Decoding (`extract_bounding_boxes`) -/

/-- One turn of the `for` loop of `extract_bounding_boxes`, up to the call that
adds the detection: `none` is a `continue`, `some d` is the record handed to
`gst_analytics_relation_meta_add_od_mtd`. -/
def detect (T : Target) (self : GstSsdObjectDetector) (w h : Nat) (tmeta : GstTensorMeta)
    (classes_index boxes_index numdetect_index : Int)
    (boxes_map scores_map classes_map : GstMapInfo) (i : Nat) : Option GstAnalyticsODMtd :=
  match get_float_at_index (tmeta.tensor numdetect_index) scores_map (to_guint i) with
  | none => none
  | some score =>
  if F32.lt score self.score_threshold then none
  else
  match get_float_at_index (tmeta.tensor boxes_index) boxes_map (to_guint (i * 4)) with
  | none => none
  | some y =>
  match get_float_at_index (tmeta.tensor boxes_index) boxes_map (to_guint (i * 4 + 1)) with
  | none => none
  | some x =>
  match get_float_at_index (tmeta.tensor boxes_index) boxes_map (to_guint (i * 4 + 2)) with
  | none => none
  | some bheight =>
  match get_float_at_index (tmeta.tensor boxes_index) boxes_map (to_guint (i * 4 + 3)) with
  | none => none
  | some bwidth =>
  if F32.gt (F32.mul (CLAMP01 bwidth) (CLAMP01 bheight)) self.size_threshold then none
  else
  let label : GQuark :=
    match self.labels with
    | none => none
    | some labels =>
      if classes_map.memory then
        match get_guint32_at_index T (tmeta.tensor classes_index) classes_map (to_guint i) with
        | none => none
        | some bclass => if hlen : bclass < labels.length then labels[bclass] else none
      else none
  let x_i := F32.toGint T (F32.mul x (F32.ofNat w))
  let y_i := F32.toGint T (F32.mul y (F32.ofNat h))
  let bheight_i := F32.toGint T (F32.sub (F32.mul bheight (F32.ofNat h)) (F32.ofInt y_i))
  let bwidth_i := F32.toGint T (F32.sub (F32.mul bwidth (F32.ofNat w)) (F32.ofInt x_i))
  some ⟨label, x_i, y_i, bwidth_i, bheight_i, score⟩

/-- The `for (int i = 0; i < num_detections; i++)` loop of
`extract_bounding_boxes`, threading the output sink. -/
def detection_loop (T : Target) (self : GstSsdObjectDetector) (w h : Nat)
    (tmeta : GstTensorMeta) (classes_index boxes_index numdetect_index : Int)
    (boxes_map scores_map classes_map : GstMapInfo)
    (rmeta : GstAnalyticsRelationMeta) (num_detections : Nat) : GstAnalyticsRelationMeta :=
  (List.range num_detections).foldl
    (fun rmeta i =>
      match detect T self w h tmeta classes_index boxes_index numdetect_index
          boxes_map scores_map classes_map i with
      | none => rmeta
      | some d => gst_analytics_relation_meta_add_od_mtd rmeta d.label d.x d.y d.w d.h d.score)
    rmeta

/-- The map of the classes tensor: tried only when the tag resolves, and left
at `GST_MAP_INFO_INIT` when it is not tried or fails. -/
def map_classes (tmeta : GstTensorMeta) (classes_index : Int) : GstMapInfo :=
  if classes_index ≠ GST_TENSOR_MISSING_ID then
    match gst_buffer_map (tmeta.tensor classes_index).data with
    | some classes_map => classes_map
    | none => GST_MAP_INFO_INIT
  else GST_MAP_INFO_INIT

/-- `extract_bounding_boxes`: the sink `rmeta` after the call. -/
def extract_bounding_boxes (T : Target) (self : GstSsdObjectDetector) (w h : Nat)
    (rmeta : GstAnalyticsRelationMeta) (tmeta : GstTensorMeta) : GstAnalyticsRelationMeta :=
  let classes_index := gst_tensor_meta_get_index_from_id tmeta
    (g_quark_from_string GST_MODEL_OBJECT_DETECTOR_CLASSES)
  let numdetect_index := gst_tensor_meta_get_index_from_id tmeta
    (g_quark_from_string GST_MODEL_OBJECT_DETECTOR_NUM_DETECTIONS)
  let scores_index := gst_tensor_meta_get_index_from_id tmeta
    (g_quark_from_string GST_MODEL_OBJECT_DETECTOR_SCORES)
  let boxes_index := gst_tensor_meta_get_index_from_id tmeta
    (g_quark_from_string GST_MODEL_OBJECT_DETECTOR_BOXES)
  if numdetect_index = GST_TENSOR_MISSING_ID ∨ scores_index = GST_TENSOR_MISSING_ID
      ∨ numdetect_index = GST_TENSOR_MISSING_ID then rmeta
  else
  match gst_buffer_map (tmeta.tensor numdetect_index).data with
  | none => rmeta
  | some numdetect_map =>
  match gst_buffer_map (tmeta.tensor boxes_index).data with
  | none => rmeta
  | some boxes_map =>
  match gst_buffer_map (tmeta.tensor scores_index).data with
  | none => rmeta
  | some scores_map =>
  let classes_map := map_classes tmeta classes_index
  match get_guint32_at_index T (tmeta.tensor numdetect_index) numdetect_map 0 with
  | none => rmeta
  | some num_detections =>
    detection_loop T self w h tmeta classes_index boxes_index numdetect_index
      boxes_map scores_map classes_map rmeta num_detections

/-! ## Per-frame processing -/

/-- Conversion of a `gint` to `gsize`. -/
def to_gsize (i : Int) : Nat := (i % 2 ^ 64).toNat

/-- `gst_ssd_object_detector_process`: the return value and the buffer after
the call. -/
def gst_ssd_object_detector_process (T : Target) (self : GstSsdObjectDetector)
    (buf : GstVideoBuffer) : Bool × GstVideoBuffer :=
  match gst_ssd_object_detector_get_tensor_meta buf with
  | none => (true, buf)
  | some tmeta =>
    let rmeta := buf.rmeta.getD []
    (true, { buf with rmeta := some (extract_bounding_boxes T self
      (to_gsize self.video_info.width) (to_gsize self.video_info.height) rmeta tmeta) })

inductive GstFlowReturn where
  | GST_FLOW_OK
  | GST_FLOW_ERROR
  deriving DecidableEq, Repr

/-- `gst_ssd_object_detector_transform_ip`; `passthrough` is the answer of
`gst_base_transform_is_passthrough`. -/
def gst_ssd_object_detector_transform_ip (T : Target) (self : GstSsdObjectDetector)
    (passthrough : Bool) (buf : GstVideoBuffer) : GstFlowReturn × GstVideoBuffer :=
  if !passthrough then
    let r := gst_ssd_object_detector_process T self buf
    if !r.1 then (.GST_FLOW_ERROR, r.2)
    else (.GST_FLOW_OK, r.2)
  else (.GST_FLOW_OK, buf)

/-- `gst_ssd_object_detector_init`, with the zero-filled fields of a fresh
object. -/
def gst_ssd_object_detector_init : GstSsdObjectDetector :=
  { label_file := none, labels := none,
    score_threshold := GST_SSD_OBJECT_DETECTOR_DEFAULT_SCORE_THRESHOLD,
    size_threshold := GST_SSD_OBJECT_DETECTOR_DEFAULT_SIZE_THRESHOLD,
    video_info := ⟨0, 0⟩ }

/-! ## Concrete inputs -/

/-- The bytes of a list of 32-bit words laid out in little-endian order. -/
def bytes_of_words (ws : List Nat) : Nat → Nat :=
  fun off => ws.getD (off / 4) 0 / 256 ^ (off % 4) % 256

/-- A successfully mapped buffer holding the given 32-bit words. -/
def words_buffer (ws : List Nat) : GstBuffer :=
  ⟨some ⟨true, bytes_of_words ws, 4 * ws.length⟩⟩

/-- A buffer that cannot be mapped. -/
def unmappable_buffer : GstBuffer := ⟨none⟩

/-- A tensor with the given tag, element type and 32-bit words. -/
def words_tensor (tag : String) (ty : GstTensorDataType) (ws : List Nat) : GstTensor :=
  ⟨g_quark_from_string tag, ty, words_buffer ws⟩

/-- What the examples put around a group's tensor array: an untagged tensor
whose buffer cannot be mapped. -/
def stray_tensor : GstTensor := ⟨none, .other 0, unmappable_buffer⟩

/-- The tensor group made of the listed tensors. -/
def group_of (ts : List GstTensor) : GstTensorMeta :=
  ⟨ts.length, fun i => if 0 ≤ i then ts.getD i.toNat stray_tensor else stray_tensor⟩

/-! ## Vocabulary of the statements, and further concrete inputs -/

/-- The decode call got as far as the loop: the tags of the count and of the
scores resolve, the three required buffers map, and the count reads as
`num_detections`. -/
structure Reached (T : Target) (tmeta : GstTensorMeta)
    (numdetect_map boxes_map scores_map : GstMapInfo) (num_detections : Nat) : Prop where
  numdetect_found : gst_tensor_meta_get_index_from_id tmeta
    (g_quark_from_string GST_MODEL_OBJECT_DETECTOR_NUM_DETECTIONS) ≠ GST_TENSOR_MISSING_ID
  scores_found : gst_tensor_meta_get_index_from_id tmeta
    (g_quark_from_string GST_MODEL_OBJECT_DETECTOR_SCORES) ≠ GST_TENSOR_MISSING_ID
  numdetect_mapped : gst_buffer_map (tmeta.tensor (gst_tensor_meta_get_index_from_id tmeta
    (g_quark_from_string GST_MODEL_OBJECT_DETECTOR_NUM_DETECTIONS))).data = some numdetect_map
  boxes_mapped : gst_buffer_map (tmeta.tensor (gst_tensor_meta_get_index_from_id tmeta
    (g_quark_from_string GST_MODEL_OBJECT_DETECTOR_BOXES))).data = some boxes_map
  scores_mapped : gst_buffer_map (tmeta.tensor (gst_tensor_meta_get_index_from_id tmeta
    (g_quark_from_string GST_MODEL_OBJECT_DETECTOR_SCORES))).data = some scores_map
  count_read : get_guint32_at_index T (tmeta.tensor (gst_tensor_meta_get_index_from_id tmeta
    (g_quark_from_string GST_MODEL_OBJECT_DETECTOR_NUM_DETECTIONS))) numdetect_map 0
      = some num_detections

/-- The turn of the loop for index `i` of a decode call on `tmeta`. -/
def detect_in (T : Target) (self : GstSsdObjectDetector) (w h : Nat) (tmeta : GstTensorMeta)
    (boxes_map scores_map : GstMapInfo) (i : Nat) : Option GstAnalyticsODMtd :=
  detect T self w h tmeta
    (gst_tensor_meta_get_index_from_id tmeta
      (g_quark_from_string GST_MODEL_OBJECT_DETECTOR_CLASSES))
    (gst_tensor_meta_get_index_from_id tmeta
      (g_quark_from_string GST_MODEL_OBJECT_DETECTOR_BOXES))
    (gst_tensor_meta_get_index_from_id tmeta
      (g_quark_from_string GST_MODEL_OBJECT_DETECTOR_NUM_DETECTIONS))
    boxes_map scores_map
    (map_classes tmeta (gst_tensor_meta_get_index_from_id tmeta
      (g_quark_from_string GST_MODEL_OBJECT_DETECTOR_CLASSES)))
    i

/-- The label step of a turn of the loop. -/
def label_of (T : Target) (self : GstSsdObjectDetector) (tmeta : GstTensorMeta)
    (classes_index : Int) (classes_map : GstMapInfo) (i : Nat) : GQuark :=
  match self.labels with
  | none => none
  | some labels =>
    if classes_map.memory then
      match get_guint32_at_index T (tmeta.tensor classes_index) classes_map (to_guint i) with
      | none => none
      | some bclass => if hlen : bclass < labels.length then labels[bclass] else none
    else none

/-- A group of three `FLOAT32` tensors: one candidate with box
`(0.1, 0.2, 0.6, 0.7)`, a count of `1.0`, and a score that is a quiet NaN. -/
def nan_score_group : GstTensorMeta := group_of [
  words_tensor GST_MODEL_OBJECT_DETECTOR_BOXES .GST_TENSOR_TYPE_FLOAT32
    [0x3DCCCCCD, 0x3E4CCCCD, 0x3F19999A, 0x3F333333],
  words_tensor GST_MODEL_OBJECT_DETECTOR_SCORES .GST_TENSOR_TYPE_FLOAT32 [0x7FC00000],
  words_tensor GST_MODEL_OBJECT_DETECTOR_NUM_DETECTIONS .GST_TENSOR_TYPE_FLOAT32 [0x3F800000]]

/-- A group of three `FLOAT32` tensors: one candidate with score `0.5` whose
`y_max` is a quiet NaN, and a count of `1.0`. -/
def nan_box_group : GstTensorMeta := group_of [
  words_tensor GST_MODEL_OBJECT_DETECTOR_BOXES .GST_TENSOR_TYPE_FLOAT32
    [0x3DCCCCCD, 0x3E4CCCCD, 0x7FC00000, 0x3F333333],
  words_tensor GST_MODEL_OBJECT_DETECTOR_SCORES .GST_TENSOR_TYPE_FLOAT32 [0x3F000000],
  words_tensor GST_MODEL_OBJECT_DETECTOR_NUM_DETECTIONS .GST_TENSOR_TYPE_FLOAT32 [0x3F800000]]

/-- A mapped view of 4 bytes; the byte `42` lies at offset `4 * (2^32 - 1)`
from its start, far outside the view. -/
def short_map : GstMapInfo := ⟨true, fun off => if off = 17179869180 then 42 else 0, 4⟩

/-- One candidate with box `(0.1, 0.2, 0.6, 0.7)` and score `0.5`, both
`FLOAT32`, and the count `1` in a tensor of the given element type. -/
def single_detection_group (count_type : GstTensorDataType) (count_word : Nat) :
    GstTensorMeta := group_of [
  words_tensor GST_MODEL_OBJECT_DETECTOR_BOXES .GST_TENSOR_TYPE_FLOAT32
    [0x3DCCCCCD, 0x3E4CCCCD, 0x3F19999A, 0x3F333333],
  words_tensor GST_MODEL_OBJECT_DETECTOR_SCORES .GST_TENSOR_TYPE_FLOAT32 [0x3F000000],
  words_tensor GST_MODEL_OBJECT_DETECTOR_NUM_DETECTIONS count_type [count_word]]

/-- The mapped boxes of the worked example. -/
def example_boxes_map : GstMapInfo :=
  ⟨true, bytes_of_words [0x3DCCCCCD, 0x3E4CCCCD, 0x3F19999A, 0x3F333333], 16⟩

/-- The mapped scores of the worked example: `0.5`. -/
def example_scores_map : GstMapInfo := ⟨true, bytes_of_words [0x3F000000], 4⟩

/-- The mapped view of the classes tensor when that tensor is present in the
group and mapped, in the words of the claim. -/
def classes_view (tmeta : GstTensorMeta) : Option GstMapInfo :=
  if gst_tensor_meta_get_index_from_id tmeta
      (g_quark_from_string GST_MODEL_OBJECT_DETECTOR_CLASSES) = GST_TENSOR_MISSING_ID then none
  else
    match gst_buffer_map (tmeta.tensor (gst_tensor_meta_get_index_from_id tmeta
        (g_quark_from_string GST_MODEL_OBJECT_DETECTOR_CLASSES))).data with
    | none => none
    | some m => if m.memory then some m else none

/-- The label of the detection at index `i` in the words of the claim:
`labels[class_id]` when a table is configured, the classes tensor is present
and mapped, the `u32` read at index `i` succeeds and `class_id` is below the
table length; quark `0` in every other case. -/
def spec_label (T : Target) (self : GstSsdObjectDetector) (tmeta : GstTensorMeta)
    (i : Nat) : GQuark :=
  match self.labels, classes_view tmeta with
  | some table, some m =>
    match get_guint32_at_index T (tmeta.tensor (gst_tensor_meta_get_index_from_id tmeta
        (g_quark_from_string GST_MODEL_OBJECT_DETECTOR_CLASSES))) m (to_guint i) with
    | some class_id => if hlen : class_id < table.length then table[class_id] else none
    | none => none
  | _, _ => none

/-- A detection without its label. -/
def without_label (d : GstAnalyticsODMtd) : GstAnalyticsODMtd := { d with label := none }

/-- A detector with the three-entry label table `person, bicycle, car` and the
default thresholds. -/
def labelled_detector : GstSsdObjectDetector :=
  { gst_ssd_object_detector_init with
    labels := some [g_quark_from_string "person", g_quark_from_string "bicycle",
      g_quark_from_string "car"] }

/-- The single-detection group with a fourth, `UINT32`, classes tensor holding
`class_id`. -/
def classified_group (class_id : Nat) : GstTensorMeta := group_of [
  words_tensor GST_MODEL_OBJECT_DETECTOR_BOXES .GST_TENSOR_TYPE_FLOAT32
    [0x3DCCCCCD, 0x3E4CCCCD, 0x3F19999A, 0x3F333333],
  words_tensor GST_MODEL_OBJECT_DETECTOR_SCORES .GST_TENSOR_TYPE_FLOAT32 [0x3F000000],
  words_tensor GST_MODEL_OBJECT_DETECTOR_NUM_DETECTIONS .GST_TENSOR_TYPE_FLOAT32 [0x3F800000],
  words_tensor GST_MODEL_OBJECT_DETECTOR_CLASSES .GST_TENSOR_TYPE_UINT32 [class_id]]

/-- The group `tmeta` with the tensor at position `pos` replaced. -/
def with_tensor (tmeta : GstTensorMeta) (pos : Int) (t : GstTensor) : GstTensorMeta :=
  { tmeta with tensor := Function.update tmeta.tensor pos t }

/-- One candidate, a `UINT32` count of `3`, and a scores tensor that holds a
single element. -/
def short_scores_group : GstTensorMeta := group_of [
  words_tensor GST_MODEL_OBJECT_DETECTOR_BOXES .GST_TENSOR_TYPE_FLOAT32
    [0x3DCCCCCD, 0x3E4CCCCD, 0x3F19999A, 0x3F333333],
  words_tensor GST_MODEL_OBJECT_DETECTOR_SCORES .GST_TENSOR_TYPE_FLOAT32 [0x3F000000],
  words_tensor GST_MODEL_OBJECT_DETECTOR_NUM_DETECTIONS .GST_TENSOR_TYPE_UINT32 [3]]

/-- A valid three-tensor group whose boxes buffer cannot be mapped. -/
def unmappable_boxes_group : GstTensorMeta := group_of [
  ⟨g_quark_from_string GST_MODEL_OBJECT_DETECTOR_BOXES, .GST_TENSOR_TYPE_FLOAT32,
    unmappable_buffer⟩,
  words_tensor GST_MODEL_OBJECT_DETECTOR_SCORES .GST_TENSOR_TYPE_FLOAT32 [0x3F000000],
  words_tensor GST_MODEL_OBJECT_DETECTOR_NUM_DETECTIONS .GST_TENSOR_TYPE_UINT32 [1]]

/-- A frame that carries `unmappable_boxes_group` and no relation meta yet. -/
def unmappable_boxes_frame : GstVideoBuffer := ⟨[.tensor_meta unmappable_boxes_group], none⟩

/-- The tensor groups attached to a frame, in iteration order. -/
def tensor_groups (metas : List GstMeta) : List GstTensorMeta :=
  metas.filterMap (fun m => match m with | .tensor_meta g => some g | .other => none)

/-- The condition of the claim on a group: it has 3 or 4 tensors, the Boxes,
Scores and NumDetections tags all resolve in it, and, when it has 4 tensors,
the Classes tag resolves too. -/
def is_valid_ssd_group (g : GstTensorMeta) : Bool :=
  decide ((g.num_tensors = 3 ∨ g.num_tensors = 4) ∧
    gst_tensor_meta_get_index_from_id g
      (g_quark_from_string GST_MODEL_OBJECT_DETECTOR_BOXES) ≠ GST_TENSOR_MISSING_ID ∧
    gst_tensor_meta_get_index_from_id g
      (g_quark_from_string GST_MODEL_OBJECT_DETECTOR_SCORES) ≠ GST_TENSOR_MISSING_ID ∧
    gst_tensor_meta_get_index_from_id g
      (g_quark_from_string GST_MODEL_OBJECT_DETECTOR_NUM_DETECTIONS) ≠ GST_TENSOR_MISSING_ID ∧
    (g.num_tensors = 4 → gst_tensor_meta_get_index_from_id g
      (g_quark_from_string GST_MODEL_OBJECT_DETECTOR_CLASSES) ≠ GST_TENSOR_MISSING_ID))

/-- One candidate with box `(0.1, 0.2, 0.6, 0.7)`, a `UINT32` count of `1`, and
a scores tensor that declares an element type other than `FLOAT32` and
`UINT32`; `scores` is the buffer of that tensor. -/
def untyped_scores_group (scores : GstBuffer) : GstTensorMeta := group_of [
  words_tensor GST_MODEL_OBJECT_DETECTOR_BOXES .GST_TENSOR_TYPE_FLOAT32
    [0x3DCCCCCD, 0x3E4CCCCD, 0x3F19999A, 0x3F333333],
  ⟨g_quark_from_string GST_MODEL_OBJECT_DETECTOR_SCORES, .other 0, scores⟩,
  words_tensor GST_MODEL_OBJECT_DETECTOR_NUM_DETECTIONS .GST_TENSOR_TYPE_UINT32 [1]]

/-- The value `v` converts to `gint` with a defined result: it is finite and
its truncation lies in `[-2^31, 2^31)`. -/
def fits_gint (v : F32) : Prop :=
  v.isNaN = false ∧ v.isInf = false ∧ -2 ^ 31 ≤ v.trunc ∧ v.trunc < 2 ^ 31

/-- An all-`FLOAT32` group with one candidate of score `0.5` and the given
four boxes words. -/
def boxes_group (y_min x_min y_max x_max : Nat) : GstTensorMeta := group_of [
  words_tensor GST_MODEL_OBJECT_DETECTOR_BOXES .GST_TENSOR_TYPE_FLOAT32
    [y_min, x_min, y_max, x_max],
  words_tensor GST_MODEL_OBJECT_DETECTOR_SCORES .GST_TENSOR_TYPE_FLOAT32 [0x3F000000],
  words_tensor GST_MODEL_OBJECT_DETECTOR_NUM_DETECTIONS .GST_TENSOR_TYPE_FLOAT32 [0x3F800000]]

/-- The candidate of index `i` in the words of the spec (4.4 step 3), before
its label is resolved.  The score is read at index `i` of the scores view and
the four box values at indices `4i .. 4i+3` of the boxes view, in the order
`(y_min, x_min, y_max, x_max)`; a failed read, a score below the score
threshold or a clamped product above the size threshold skips the candidate;
otherwise the pixel box is the converted scaling of the values read.  Neither
the label table nor the classes tensor is an input.  `score_tensor` is the
tensor whose declared type decodes the scores view. -/
def spec_candidate (T : Target) (score_threshold size_threshold : F32) (w h : Nat)
    (score_tensor boxes_tensor : GstTensor) (boxes_map scores_map : GstMapInfo) (i : Nat) :
    Option GstAnalyticsODMtd :=
  match get_float_at_index score_tensor scores_map (to_guint i),
    get_float_at_index boxes_tensor boxes_map (to_guint (i * 4)),
    get_float_at_index boxes_tensor boxes_map (to_guint (i * 4 + 1)),
    get_float_at_index boxes_tensor boxes_map (to_guint (i * 4 + 2)),
    get_float_at_index boxes_tensor boxes_map (to_guint (i * 4 + 3)) with
  | some score, some y_min, some x_min, some y_max, some x_max =>
    if F32.lt score score_threshold = true ∨
        F32.gt (F32.mul (CLAMP01 x_max) (CLAMP01 y_max)) size_threshold = true then none
    else
      some ⟨none,
        F32.toGint T (F32.mul x_min (F32.ofNat w)),
        F32.toGint T (F32.mul y_min (F32.ofNat h)),
        F32.toGint T (F32.sub (F32.mul x_max (F32.ofNat w))
          (F32.ofInt (F32.toGint T (F32.mul x_min (F32.ofNat w))))),
        F32.toGint T (F32.sub (F32.mul y_max (F32.ofNat h))
          (F32.ofInt (F32.toGint T (F32.mul y_min (F32.ofNat h))))),
        score⟩
  | _, _, _, _, _ => none

/-- The detection of index `i` of a decode call on `tmeta`, in the words of
the spec: the candidate of index `i`, read from the views `boxes_map` and
`scores_map`, with the label of the claim.  The scores view is decoded with
the declared type of the tensor that the code passes to the score read, the
num-detections tensor. -/
def spec_detection (T : Target) (self : GstSsdObjectDetector) (w h : Nat)
    (tmeta : GstTensorMeta) (boxes_map scores_map : GstMapInfo) (i : Nat) :
    Option GstAnalyticsODMtd :=
  (spec_candidate T self.score_threshold self.size_threshold w h
    (tmeta.tensor (gst_tensor_meta_get_index_from_id tmeta
      (g_quark_from_string GST_MODEL_OBJECT_DETECTOR_NUM_DETECTIONS)))
    (tmeta.tensor (gst_tensor_meta_get_index_from_id tmeta
      (g_quark_from_string GST_MODEL_OBJECT_DETECTOR_BOXES)))
    boxes_map scores_map i).map
    (fun c => { c with label := spec_label T self tmeta i })

/-- The single-detection group with a fourth tensor tagged Classes, of type
`UINT32`, carried by the given buffer. -/
def classes_buffer_group (classes : GstBuffer) : GstTensorMeta := group_of [
  words_tensor GST_MODEL_OBJECT_DETECTOR_BOXES .GST_TENSOR_TYPE_FLOAT32
    [0x3DCCCCCD, 0x3E4CCCCD, 0x3F19999A, 0x3F333333],
  words_tensor GST_MODEL_OBJECT_DETECTOR_SCORES .GST_TENSOR_TYPE_FLOAT32 [0x3F000000],
  words_tensor GST_MODEL_OBJECT_DETECTOR_NUM_DETECTIONS .GST_TENSOR_TYPE_FLOAT32 [0x3F800000],
  ⟨g_quark_from_string GST_MODEL_OBJECT_DETECTOR_CLASSES, .GST_TENSOR_TYPE_UINT32, classes⟩]

/-! ## General facts about the embedding -/

/-- The detection loop, run over any list of indices, appends in order what
`detect` gives. -/
theorem detection_fold_eq (T : Target) (self : GstSsdObjectDetector) (w h : Nat)
    (tmeta : GstTensorMeta) (ci bi ni : Int) (bm sm cm : GstMapInfo)
    (l : List Nat) (rmeta : GstAnalyticsRelationMeta) :
    l.foldl
      (fun rmeta i =>
        match detect T self w h tmeta ci bi ni bm sm cm i with
        | none => rmeta
        | some d => gst_analytics_relation_meta_add_od_mtd rmeta d.label d.x d.y d.w d.h d.score)
      rmeta
      = rmeta ++ l.filterMap (detect T self w h tmeta ci bi ni bm sm cm) := by
  induction l generalizing rmeta with
  | nil => simp
  | cons a l ih =>
    simp only [List.foldl_cons, List.filterMap_cons]
    cases hfa : detect T self w h tmeta ci bi ni bm sm cm a with
    | none => simpa using ih rmeta
    | some d =>
      have hd : gst_analytics_relation_meta_add_od_mtd rmeta d.label d.x d.y d.w d.h d.score
          = rmeta ++ [d] := rfl
      simp only [hd, ih, List.append_assoc, List.singleton_append]

/-- The detection loop appends, in index order, what `detect` gives. -/
theorem detection_loop_eq (T : Target) (self : GstSsdObjectDetector) (w h : Nat)
    (tmeta : GstTensorMeta) (ci bi ni : Int) (bm sm cm : GstMapInfo)
    (rmeta : GstAnalyticsRelationMeta) (n : Nat) :
    detection_loop T self w h tmeta ci bi ni bm sm cm rmeta n
      = rmeta ++ (List.range n).filterMap (detect T self w h tmeta ci bi ni bm sm cm) :=
  detection_fold_eq T self w h tmeta ci bi ni bm sm cm (List.range n) rmeta

/-- When the loop is reached, the call appends what the turns `0 .. n-1` give. -/
theorem extract_of_reached (T : Target) (self : GstSsdObjectDetector) (w h : Nat)
    (rmeta : GstAnalyticsRelationMeta) (tmeta : GstTensorMeta)
    (nm bm sm : GstMapInfo) (n : Nat) (hr : Reached T tmeta nm bm sm n) :
    extract_bounding_boxes T self w h rmeta tmeta
      = rmeta ++ (List.range n).filterMap (detect_in T self w h tmeta bm sm) := by
  obtain ⟨h1, h2, h3, h4, h5, h6⟩ := hr
  unfold extract_bounding_boxes
  simp only [h1, h2, h3, h4, h5, h6, or_self, if_false, detection_loop_eq]
  rfl

/-- When the loop is not reached, the call leaves the sink as it was. -/
theorem extract_of_not_reached (T : Target) (self : GstSsdObjectDetector) (w h : Nat)
    (rmeta : GstAnalyticsRelationMeta) (tmeta : GstTensorMeta)
    (hn : ¬ ∃ nm bm sm n, Reached T tmeta nm bm sm n) :
    extract_bounding_boxes T self w h rmeta tmeta = rmeta := by
  unfold extract_bounding_boxes
  simp only []
  split_ifs with hg
  · rfl
  · push_neg at hg
    split
    · rfl
    · rename_i nm hnm
      split
      · rfl
      · rename_i bm hbm
        split
        · rfl
        · rename_i sm hsm
          split
          · rfl
          · rename_i n hcount
            exact absurd ⟨nm, bm, sm, n, ⟨hg.1, hg.2.1, hnm, hbm, hsm, hcount⟩⟩ hn

/-- Every call appends to the sink, and each record it appends comes from a
turn `i < num_detections` of a loop that was reached. -/
theorem extract_appends (T : Target) (self : GstSsdObjectDetector) (w h : Nat)
    (rmeta : GstAnalyticsRelationMeta) (tmeta : GstTensorMeta) :
    ∃ added, extract_bounding_boxes T self w h rmeta tmeta = rmeta ++ added ∧
      ∀ d ∈ added, ∃ nm bm sm n i, Reached T tmeta nm bm sm n ∧ i < n ∧
        detect_in T self w h tmeta bm sm i = some d := by
  by_cases hr : ∃ nm bm sm n, Reached T tmeta nm bm sm n
  · obtain ⟨nm, bm, sm, n, hr⟩ := hr
    refine ⟨_, extract_of_reached T self w h rmeta tmeta nm bm sm n hr, ?_⟩
    intro d hd
    obtain ⟨i, hi, hdi⟩ := List.mem_filterMap.mp hd
    exact ⟨nm, bm, sm, n, i, hr, List.mem_range.mp hi, hdi⟩
  · exact ⟨[], by simp [extract_of_not_reached T self w h rmeta tmeta hr], by simp⟩

/-- What a turn of the loop that emits a record went through: the five reads
succeeded, neither filter fired, and the record is built from the values
read. -/
theorem detect_eq_some (T : Target) (self : GstSsdObjectDetector) (w h : Nat)
    (tmeta : GstTensorMeta) (ci bi ni : Int) (bm sm cm : GstMapInfo) (i : Nat)
    (d : GstAnalyticsODMtd) :
    detect T self w h tmeta ci bi ni bm sm cm i = some d ↔
    ∃ score y x bheight bwidth,
      get_float_at_index (tmeta.tensor ni) sm (to_guint i) = some score ∧
      F32.lt score self.score_threshold = false ∧
      get_float_at_index (tmeta.tensor bi) bm (to_guint (i * 4)) = some y ∧
      get_float_at_index (tmeta.tensor bi) bm (to_guint (i * 4 + 1)) = some x ∧
      get_float_at_index (tmeta.tensor bi) bm (to_guint (i * 4 + 2)) = some bheight ∧
      get_float_at_index (tmeta.tensor bi) bm (to_guint (i * 4 + 3)) = some bwidth ∧
      F32.gt (F32.mul (CLAMP01 bwidth) (CLAMP01 bheight)) self.size_threshold = false ∧
      d = ⟨label_of T self tmeta ci cm i,
        F32.toGint T (F32.mul x (F32.ofNat w)),
        F32.toGint T (F32.mul y (F32.ofNat h)),
        F32.toGint T (F32.sub (F32.mul bwidth (F32.ofNat w))
          (F32.ofInt (F32.toGint T (F32.mul x (F32.ofNat w))))),
        F32.toGint T (F32.sub (F32.mul bheight (F32.ofNat h))
          (F32.ofInt (F32.toGint T (F32.mul y (F32.ofNat h))))),
        score⟩ := by
  unfold detect
  cases h1 : get_float_at_index (tmeta.tensor ni) sm (to_guint i) with
  | none => simp
  | some score =>
  cases h2 : F32.lt score self.score_threshold with
  | true => simp [h2]
  | false =>
  cases h3 : get_float_at_index (tmeta.tensor bi) bm (to_guint (i * 4)) with
  | none => simp
  | some y =>
  cases h4 : get_float_at_index (tmeta.tensor bi) bm (to_guint (i * 4 + 1)) with
  | none => simp
  | some x =>
  cases h5 : get_float_at_index (tmeta.tensor bi) bm (to_guint (i * 4 + 2)) with
  | none => simp
  | some bheight =>
  cases h6 : get_float_at_index (tmeta.tensor bi) bm (to_guint (i * 4 + 3)) with
  | none => simp
  | some bwidth =>
  cases h7 : F32.gt (F32.mul (CLAMP01 bwidth) (CLAMP01 bheight)) self.size_threshold with
  | true => simp [h7]
  | false =>
    simp only [h2, h7, Bool.false_eq_true, if_false, Option.some.injEq]
    constructor
    · intro hd
      exact ⟨score, y, x, bheight, bwidth, rfl, h2, rfl, rfl, rfl, rfl, h7, hd.symm⟩
    · rintro ⟨_, _, _, _, _, rfl, -, rfl, rfl, rfl, rfl, -, hd⟩
      exact hd.symm

/-! ## Facts about binary32 comparisons and products -/

/-- With no NaN involved, `a < b` being false means `a >= b`. -/
theorem F32.ge_of_lt_eq_false (a b : F32) (ha : a.isNaN = false) (hb : b.isNaN = false)
    (hlt : F32.lt a b = false) : F32.ge a b = true := by
  simp only [F32.lt, ha, hb, Bool.not_false, Bool.true_and, decide_eq_false_iff_not,
    not_lt] at hlt
  simp [F32.ge, F32.le, ha, hb, hlt]

/-- With no NaN involved, `a > b` being false means `a <= b`. -/
theorem F32.le_of_gt_eq_false (a b : F32) (ha : a.isNaN = false) (hb : b.isNaN = false)
    (hgt : F32.gt a b = false) : F32.le a b = true := by
  simp only [F32.gt, F32.lt, ha, hb, Bool.not_false, Bool.true_and, decide_eq_false_iff_not,
    not_lt] at hgt
  simp [F32.le, ha, hb, hgt]

/-- A comparison with a NaN operand is false. -/
theorem F32.ge_nan_left (a b : F32) (ha : a.isNaN = true) : F32.ge a b = false := by
  simp [F32.ge, F32.le, ha]

/-- Packing a sign with an exponent-and-fraction value, with overflow to
infinity, never produces a NaN. -/
theorem F32.isNaN_pack (neg : Bool) (b : Nat) :
    (if b ≥ 0x7F800000 then F32.inf neg else (⟨F32.signBit neg + b⟩ : F32)).isNaN = false := by
  split_ifs with hb
  · cases neg <;> decide
  · have he : (F32.signBit neg + b) / 2 ^ 23 % 256 ≠ 255 := by
      cases neg <;> simp only [F32.signBit] <;> norm_num at hb ⊢ <;> omega
    have he2 : ((F32.signBit neg + b) / 2 ^ 23 % 256 == 255) = false := by simpa using he
    simp only [F32.isNaN, F32.expo, he2, Bool.false_and]

/-- Rounding never produces a NaN. -/
theorem F32.isNaN_round (neg : Bool) (a scale : Nat) : (F32.round neg a scale).isNaN = false := by
  unfold F32.round
  by_cases h0 : a = 0
  · simp only [h0, if_true]
    cases neg <;> decide
  · simp only [h0, if_false]
    exact F32.isNaN_pack neg _

theorem F32.ofInt_one : F32.ofInt 1 = ⟨0x3F800000⟩ := by decide

theorem F32.ofInt_zero : F32.ofInt 0 = ⟨0⟩ := by decide

/-- An infinity is below `0` or above `1`. -/
theorem F32.inf_outside (x : F32) (hinf : x.isInf = true) :
    (x.toInt < (⟨0⟩ : F32).toInt) ∨ ((⟨0x3F800000⟩ : F32).toInt < x.toInt) := by
  have h : x.expo = 255 ∧ x.frac = 0 := by simpa [F32.isInf] using hinf
  have hm : x.mag = 2 ^ 23 * 2 ^ 254 := by simp [F32.mag, h.1, h.2]
  have h0 : (⟨0⟩ : F32).toInt = 0 := by decide
  have h1 : (⟨0x3F800000⟩ : F32).toInt = 2 ^ 149 := by
    norm_num [F32.toInt, F32.sign, F32.mag, F32.expo, F32.frac]
  rw [h0, h1]
  unfold F32.toInt
  rw [hm]
  cases x.sign
  · right; norm_num
  · left; norm_num

/-- `CLAMP (x, 0, 1)` of a value that is not a NaN is a finite number. -/
theorem CLAMP01_finite (x : F32) (hx : x.isNaN = false) :
    (CLAMP01 x).isNaN = false ∧ (CLAMP01 x).isInf = false := by
  unfold CLAMP01
  rw [F32.ofInt_one, F32.ofInt_zero]
  split_ifs with h1 h0
  · exact ⟨by decide, by decide⟩
  · exact ⟨by decide, by decide⟩
  · refine ⟨hx, ?_⟩
    by_contra hinf
    have hinf' : x.isInf = true := by simpa using hinf
    have hn1 : (⟨0x3F800000⟩ : F32).isNaN = false := by decide
    have hn0 : (⟨0⟩ : F32).isNaN = false := by decide
    rcases F32.inf_outside x hinf' with hlow | hhigh
    · exact h0 (by simp [F32.lt, hx, hn0, hlow])
    · exact h1 (by simp [F32.gt, F32.lt, hx, hn1, hhigh])

/-- A product of two finite numbers is not a NaN. -/
theorem F32.isNaN_mul_finite (a b : F32) (ha : a.isNaN = false) (hb : b.isNaN = false)
    (hia : a.isInf = false) (hib : b.isInf = false) : (F32.mul a b).isNaN = false := by
  simp only [F32.mul, ha, hb, hia, hib, Bool.or_self, Bool.false_eq_true, if_false]
  exact F32.isNaN_round _ _ _

/-- The product that the size filter tests is a NaN only if one of the two
values read is. -/
theorem isNaN_clamped_product (bwidth bheight : F32) (hw : bwidth.isNaN = false)
    (hh : bheight.isNaN = false) :
    (F32.mul (CLAMP01 bwidth) (CLAMP01 bheight)).isNaN = false :=
  F32.isNaN_mul_finite _ _ (CLAMP01_finite bwidth hw).1 (CLAMP01_finite bheight hh).1
    (CLAMP01_finite bwidth hw).2 (CLAMP01_finite bheight hh).2

/-! ## Score filter -/

set_option maxRecDepth 100000 in
set_option exponentiation.threshold 2000 in
/-- C1, as stated, fails: with the default thresholds, a candidate whose score
is a NaN is added to the output, and its score is not `>=` the score threshold
(`NaN < 0.3` is false, so the filter does not fire; `NaN >= 0.3` is false
too). -/
theorem nan_score_is_emitted :
    extract_bounding_boxes sseTarget gst_ssd_object_detector_init 100 200 [] nan_score_group
        = [⟨none, 20, 20, 50, 100, ⟨0x7FC00000⟩⟩] ∧
      F32.ge ⟨0x7FC00000⟩ gst_ssd_object_detector_init.score_threshold = false := by
  decide

/-- C1 (amended): every detection that `extract_bounding_boxes` adds to the
output carries a score that is not below the configured `score_threshold` in
the C comparison; it is greater than or equal to the threshold whenever
neither the score nor the threshold is a NaN. -/
theorem emitted_score_not_below_threshold (T : Target) (self : GstSsdObjectDetector)
    (w h : Nat) (rmeta : GstAnalyticsRelationMeta) (tmeta : GstTensorMeta) :
    ∃ added, extract_bounding_boxes T self w h rmeta tmeta = rmeta ++ added ∧
      ∀ d ∈ added, F32.lt d.score self.score_threshold = false ∧
        (d.score.isNaN = false → self.score_threshold.isNaN = false →
          F32.ge d.score self.score_threshold = true) := by
  obtain ⟨added, heq, hall⟩ := extract_appends T self w h rmeta tmeta
  refine ⟨added, heq, ?_⟩
  intro d hd
  obtain ⟨nm, bm, sm, n, i, -, -, hdet⟩ := hall d hd
  obtain ⟨score, y, x, bheight, bwidth, -, hlt, -, -, -, -, -, rfl⟩ :=
    (detect_eq_some _ _ _ _ _ _ _ _ _ _ _ _ _).mp hdet
  exact ⟨hlt, fun hs ht => F32.ge_of_lt_eq_false _ _ hs ht hlt⟩

/-! ## Size filter -/

set_option maxRecDepth 100000 in
set_option exponentiation.threshold 2000 in
/-- C2, as stated, fails: with the default thresholds, a candidate whose
`y_max` is a NaN is added to the output although
`clamp(x_max,0,1) * clamp(y_max,0,1)` is a NaN, which is not `<=` the size
threshold. -/
theorem nan_box_is_emitted :
    extract_bounding_boxes sseTarget gst_ssd_object_detector_init 100 200 [] nan_box_group
        = [⟨none, 20, 20, 50, -2147483648, ⟨0x3F000000⟩⟩] ∧
      F32.le (F32.mul (CLAMP01 ⟨0x3F333333⟩) (CLAMP01 ⟨0x7FC00000⟩))
        gst_ssd_object_detector_init.size_threshold = false := by
  decide

/-- C2 (amended): every detection that `extract_bounding_boxes` adds to the
output was emitted for an index `i` at which the boxes tensor gave `x_max`
(index `4i+3`) and `y_max` (index `4i+2`, both as 32-bit indices), and
`clamp(x_max,0,1) * clamp(y_max,0,1)` is not above the configured
`size_threshold` in the C comparison; it is less than or equal to the
threshold whenever none of `x_max`, `y_max` and the threshold is a NaN. -/
theorem emitted_size_not_above_threshold (T : Target) (self : GstSsdObjectDetector)
    (w h : Nat) (rmeta : GstAnalyticsRelationMeta) (tmeta : GstTensorMeta) :
    ∃ added, extract_bounding_boxes T self w h rmeta tmeta = rmeta ++ added ∧
      ∀ d ∈ added, ∃ boxes_map scores_map i x_max y_max,
        gst_buffer_map (tmeta.tensor (gst_tensor_meta_get_index_from_id tmeta
          (g_quark_from_string GST_MODEL_OBJECT_DETECTOR_BOXES))).data = some boxes_map ∧
        detect_in T self w h tmeta boxes_map scores_map i = some d ∧
        get_float_at_index (tmeta.tensor (gst_tensor_meta_get_index_from_id tmeta
          (g_quark_from_string GST_MODEL_OBJECT_DETECTOR_BOXES))) boxes_map
            (to_guint (i * 4 + 3)) = some x_max ∧
        get_float_at_index (tmeta.tensor (gst_tensor_meta_get_index_from_id tmeta
          (g_quark_from_string GST_MODEL_OBJECT_DETECTOR_BOXES))) boxes_map
            (to_guint (i * 4 + 2)) = some y_max ∧
        F32.gt (F32.mul (CLAMP01 x_max) (CLAMP01 y_max)) self.size_threshold = false ∧
        (x_max.isNaN = false → y_max.isNaN = false → self.size_threshold.isNaN = false →
          F32.le (F32.mul (CLAMP01 x_max) (CLAMP01 y_max)) self.size_threshold = true) := by
  obtain ⟨added, heq, hall⟩ := extract_appends T self w h rmeta tmeta
  refine ⟨added, heq, ?_⟩
  intro d hd
  obtain ⟨nm, bm, sm, n, i, hr, -, hdet⟩ := hall d hd
  obtain ⟨score, y, x, bheight, bwidth, -, -, -, -, hh, hw, hgt, -⟩ :=
    (detect_eq_some _ _ _ _ _ _ _ _ _ _ _ _ _).mp hdet
  exact ⟨bm, sm, i, bwidth, bheight, hr.boxes_mapped, hdet, hw, hh, hgt,
    fun hxn hyn htn =>
      F32.le_of_gt_eq_false _ _ (isNaN_clamped_product bwidth bheight hxn hyn) htn hgt⟩

/-! ## Bounds check of the typed reads -/

/-- C3: at `index = 2^32 - 1` the guard computes `index + 1 = 0` in `guint`,
so `sizeof * 0 > size` is false and both readers return `TRUE` with the word
found at byte offset `4 * (2^32 - 1)`, although `(index + 1) * 4` exceeds the
length `4` of the view. -/
theorem read_succeeds_past_the_view :
    get_float_at_index ⟨none, .GST_TENSOR_TYPE_FLOAT32, ⟨some short_map⟩⟩ short_map 4294967295
        = some ⟨42⟩ ∧
      get_guint32_at_index sseTarget ⟨none, .GST_TENSOR_TYPE_UINT32, ⟨some short_map⟩⟩
        short_map 4294967295 = some 42 ∧
      (4294967295 + 1) * 4 > short_map.size := by
  decide

/-- For every index below `2^32 - 1` the guard is exact: a read that succeeds
has its four bytes inside the view. -/
theorem get_float_in_bounds (tensor : GstTensor) (map : GstMapInfo) (index : Nat) (v : F32)
    (hindex : index < 2 ^ 32 - 1) (hget : get_float_at_index tensor map index = some v) :
    (index + 1) * 4 ≤ map.size := by
  have hmod : to_guint (index + 1) = index + 1 := by
    unfold to_guint
    exact Nat.mod_eq_of_lt (by omega)
  unfold get_float_at_index at hget
  split at hget
  · simp only [index_past_size, hmod, decide_eq_true_eq] at hget
    split_ifs at hget with hp
    omega
  · simp only [index_past_size, hmod, decide_eq_true_eq] at hget
    split_ifs at hget with hp
    omega
  · exact absurd hget (by simp)

/-- For every index below `2^32 - 1` the guard is exact for the integer reader
too. -/
theorem get_guint32_in_bounds (T : Target) (tensor : GstTensor) (map : GstMapInfo)
    (index v : Nat) (hindex : index < 2 ^ 32 - 1)
    (hget : get_guint32_at_index T tensor map index = some v) :
    (index + 1) * 4 ≤ map.size := by
  have hmod : to_guint (index + 1) = index + 1 := by
    unfold to_guint
    exact Nat.mod_eq_of_lt (by omega)
  unfold get_guint32_at_index at hget
  split at hget
  · simp only [index_past_size, hmod, decide_eq_true_eq] at hget
    split_ifs at hget with hp
    omega
  · simp only [index_past_size, hmod, decide_eq_true_eq] at hget
    split_ifs at hget with hp
    omega
  · exact absurd hget (by simp)

/-! ## Element type used for the scores -/

set_option maxRecDepth 100000 in
set_option exponentiation.threshold 2000 in
/-- C4: the score is decoded with the element type of the num-detections
tensor.  The scores tensor is `FLOAT32` and holds `0.5` (`0x3F000000`) at
index 0; with the count `1` held in a `UINT32` tensor the detection carries
the score `1056964608.0` (`0x4E7C0000`, the word `0x3F000000` read as an
integer), and with the count `1.0` held in a `FLOAT32` tensor it carries
`0.5`. -/
theorem score_decoded_with_count_type :
    extract_bounding_boxes sseTarget gst_ssd_object_detector_init 100 200 []
        (single_detection_group .GST_TENSOR_TYPE_UINT32 1)
      = [⟨none, 20, 20, 50, 100, ⟨0x4E7C0000⟩⟩] ∧
    extract_bounding_boxes sseTarget gst_ssd_object_detector_init 100 200 []
        (single_detection_group .GST_TENSOR_TYPE_FLOAT32 0x3F800000)
      = [⟨none, 20, 20, 50, 100, ⟨0x3F000000⟩⟩] ∧
    get_float_at_index
        (words_tensor GST_MODEL_OBJECT_DETECTOR_SCORES .GST_TENSOR_TYPE_FLOAT32 [0x3F000000])
        ⟨true, bytes_of_words [0x3F000000], 4⟩ 0 = some ⟨0x3F000000⟩ := by
  decide

/-! ## Pixel box of the worked example -/

/-- Converting a finite value whose truncation fits a `gint` gives that
truncation on every target. -/
theorem F32.toGint_of_fits (T : Target) (x : F32) (k : Int) (hn : x.isNaN = false)
    (hi : x.isInf = false) (hk : x.trunc = k) (hlo : -2 ^ 31 ≤ k) (hhi : k < 2 ^ 31) :
    F32.toGint T x = k := by
  unfold F32.toGint
  simp only [hn, hi, Bool.or_self, Bool.false_eq_true, if_false, hk]
  rw [if_pos ⟨hlo, hhi⟩]

/-- The label step of the code computes the label of the claim. -/
theorem label_of_eq_spec_label (T : Target) (self : GstSsdObjectDetector)
    (tmeta : GstTensorMeta) (i : Nat) :
    label_of T self tmeta
      (gst_tensor_meta_get_index_from_id tmeta
        (g_quark_from_string GST_MODEL_OBJECT_DETECTOR_CLASSES))
      (map_classes tmeta (gst_tensor_meta_get_index_from_id tmeta
        (g_quark_from_string GST_MODEL_OBJECT_DETECTOR_CLASSES))) i
      = spec_label T self tmeta i := by
  unfold label_of spec_label classes_view map_classes
  cases hl : self.labels with
  | none => simp
  | some table =>
    by_cases hci : gst_tensor_meta_get_index_from_id tmeta
        (g_quark_from_string GST_MODEL_OBJECT_DETECTOR_CLASSES) = GST_TENSOR_MISSING_ID
    · simp [hci, GST_MAP_INFO_INIT]
    · simp only [hci, ne_eq, not_false_eq_true, if_true, if_false]
      cases hm : gst_buffer_map (tmeta.tensor (gst_tensor_meta_get_index_from_id tmeta
          (g_quark_from_string GST_MODEL_OBJECT_DETECTOR_CLASSES))).data with
      | none => simp [GST_MAP_INFO_INIT]
      | some m =>
        cases hmem : m.memory with
        | false => simp [hmem]
        | true =>
          simp only [hmem, if_true]
          cases get_guint32_at_index T (tmeta.tensor (gst_tensor_meta_get_index_from_id tmeta
            (g_quark_from_string GST_MODEL_OBJECT_DETECTOR_CLASSES))) m (to_guint i) <;> rfl

/-- Whether, and with which box and score, a turn of the loop emits does not
depend on the label table, the classes tensor or its map. -/
theorem detect_without_label (T : Target) (self self2 : GstSsdObjectDetector) (w h : Nat)
    (tmeta : GstTensorMeta) (ci ci2 bi ni : Int) (bm sm cm cm2 : GstMapInfo) (i : Nat)
    (hscore : self2.score_threshold = self.score_threshold)
    (hsize : self2.size_threshold = self.size_threshold) :
    (detect T self2 w h tmeta ci2 bi ni bm sm cm2 i).map without_label
      = (detect T self w h tmeta ci bi ni bm sm cm i).map without_label := by
  have key : ∀ (s1 s2 : GstSsdObjectDetector) (c1 c2 : Int) (m1 m2 : GstMapInfo)
      (d : GstAnalyticsODMtd), s2.score_threshold = s1.score_threshold →
      s2.size_threshold = s1.size_threshold →
      detect T s1 w h tmeta c1 bi ni bm sm m1 i = some d →
      ∃ d2, detect T s2 w h tmeta c2 bi ni bm sm m2 i = some d2 ∧
        without_label d2 = without_label d := by
    intro s1 s2 c1 c2 m1 m2 d e1 e2 hd
    obtain ⟨score, y, x, bheight, bwidth, h1, h2, h3, h4, h5, h6, h7, rfl⟩ :=
      (detect_eq_some _ _ _ _ _ _ _ _ _ _ _ _ _).mp hd
    refine ⟨_, (detect_eq_some T s2 w h tmeta c2 bi ni bm sm m2 i _).mpr
      ⟨score, y, x, bheight, bwidth, h1, by rw [e1]; exact h2, h3, h4, h5, h6,
        by rw [e2]; exact h7, rfl⟩, rfl⟩
  cases hd : detect T self w h tmeta ci bi ni bm sm cm i with
  | some d =>
    obtain ⟨d2, hd2, hw⟩ := key self self2 ci ci2 cm cm2 d hscore hsize hd
    simp [hd2, hw]
  | none =>
    cases hd2 : detect T self2 w h tmeta ci2 bi ni bm sm cm2 i with
    | none => rfl
    | some d2 =>
      obtain ⟨d, hd', -⟩ := key self2 self ci2 ci cm2 cm d2 hscore.symm hsize.symm hd2
      rw [hd] at hd'
      exact absurd hd' (by simp)

/-- The detections of a call, up to their labels, are those of the same call
made with no label table configured. -/
theorem extract_without_label (T : Target) (self : GstSsdObjectDetector) (w h : Nat)
    (tmeta : GstTensorMeta) :
    (extract_bounding_boxes T self w h [] tmeta).map without_label
      = (extract_bounding_boxes T { self with labels := none } w h [] tmeta).map
          without_label := by
  by_cases hr : ∃ nm bm sm n, Reached T tmeta nm bm sm n
  · obtain ⟨nm, bm, sm, n, hr⟩ := hr
    rw [extract_of_reached T self w h [] tmeta nm bm sm n hr,
      extract_of_reached T { self with labels := none } w h [] tmeta nm bm sm n hr]
    simp only [List.nil_append, List.map_filterMap]
    congr 1
    funext i
    exact (detect_without_label T self { self with labels := none } w h tmeta _ _ _ _
      bm sm _ _ i rfl rfl).symm
  · rw [extract_of_not_reached T self w h [] tmeta hr,
      extract_of_not_reached T { self with labels := none } w h [] tmeta hr]

set_option maxRecDepth 100000 in
set_option exponentiation.threshold 2000 in
/-- With a three-entry table, `class_id = 5` gives no label and `class_id = 1`
gives the second entry; the detection is emitted in both cases. -/
theorem label_resolution_examples :
    extract_bounding_boxes sseTarget labelled_detector 100 200 [] (classified_group 5)
      = [⟨none, 20, 20, 50, 100, ⟨0x3F000000⟩⟩] ∧
    extract_bounding_boxes sseTarget labelled_detector 100 200 [] (classified_group 1)
      = [⟨some "bicycle", 20, 20, 50, 100, ⟨0x3F000000⟩⟩] := by
  decide

/-! ## Scores tensor shorter than the count -/

/-- A word assembled from four bytes fits 32 bits. -/
theorem load32_lt (map : GstMapInfo) (index : Nat) : load32 map index < 2 ^ 32 := by
  unfold load32
  have h0 := Nat.mod_lt (map.data (4 * index)) (by norm_num : 256 > 0)
  have h1 := Nat.mod_lt (map.data (4 * index + 1)) (by norm_num : 256 > 0)
  have h2 := Nat.mod_lt (map.data (4 * index + 2)) (by norm_num : 256 > 0)
  have h3 := Nat.mod_lt (map.data (4 * index + 3)) (by norm_num : 256 > 0)
  norm_num
  omega

/-- A `float` converted to `guint32` fits 32 bits. -/
theorem F32.toGuint32_lt (T : Target) (x : F32) : F32.toGuint32 T x < 2 ^ 32 := by
  unfold F32.toGuint32
  split_ifs with h1 h2
  · exact Nat.mod_lt _ (by norm_num)
  · have := h2.2
    omega
  · exact Nat.mod_lt _ (by norm_num)

/-- A value read as `guint32` fits 32 bits. -/
theorem get_guint32_lt (T : Target) (tensor : GstTensor) (map : GstMapInfo) (index v : Nat)
    (hget : get_guint32_at_index T tensor map index = some v) : v < 2 ^ 32 := by
  unfold get_guint32_at_index at hget
  split at hget
  · split_ifs at hget
    cases hget
    exact F32.toGuint32_lt T _
  · split_ifs at hget
    cases hget
    exact load32_lt map index
  · exact absurd hget (by simp)

/-- A float read at an index whose element does not fit the view fails, for
indices below `2^32 - 1`. -/
theorem get_float_eq_none_of_short (tensor : GstTensor) (map : GstMapInfo) (index : Nat)
    (hindex : index < 2 ^ 32 - 1) (hshort : map.size < (index + 1) * 4) :
    get_float_at_index tensor map index = none := by
  have hmod : to_guint (index + 1) = index + 1 := by
    unfold to_guint
    exact Nat.mod_eq_of_lt (by omega)
  have hpast : index_past_size map index = true := by
    simp only [index_past_size, hmod, decide_eq_true_eq]
    omega
  unfold get_float_at_index
  split <;> simp [hpast]

/-- A turn of the loop whose score index lies beyond the complete elements of
the scores view is a `continue`. -/
theorem detect_eq_none_of_short (T : Target) (self : GstSsdObjectDetector) (w h : Nat)
    (tmeta : GstTensorMeta) (ci bi ni : Int) (bm sm cm : GstMapInfo) (i : Nat)
    (hi : i < 2 ^ 32 - 1) (hshort : sm.size / 4 ≤ i) :
    detect T self w h tmeta ci bi ni bm sm cm i = none := by
  have hmod : to_guint i = i := by
    unfold to_guint
    exact Nat.mod_eq_of_lt (by omega)
  have hnone : get_float_at_index (tmeta.tensor ni) sm (to_guint i) = none := by
    rw [hmod]
    exact get_float_eq_none_of_short _ _ _ hi (by omega)
  unfold detect
  rw [hnone]

/-- Turns that are all a `continue` from `k` on add nothing after `k`. -/
theorem filterMap_range_of_none {β : Type} (f : Nat → Option β) (k n : Nat) (hkn : k ≤ n)
    (hnone : ∀ i, k ≤ i → i < n → f i = none) :
    (List.range n).filterMap f = (List.range k).filterMap f := by
  obtain ⟨m, rfl⟩ := Nat.exists_eq_add_of_le hkn
  rw [List.range_add, List.filterMap_append]
  have htail : List.filterMap f (List.map (fun x => k + x) (List.range m)) = [] := by
    rw [List.filterMap_eq_nil_iff]
    intro a ha
    obtain ⟨j, hj, rfl⟩ := List.mem_map.mp ha
    exact hnone (k + j) (Nat.le_add_right k j) (by have := List.mem_range.mp hj; omega)
  rw [htail, List.append_nil]

/-- A tag lookup gives `GST_TENSOR_MISSING_ID` or a position at or after `0`
that carries the tag. -/
theorem get_index_from_id_spec (tmeta : GstTensorMeta) (id : GQuark) :
    gst_tensor_meta_get_index_from_id tmeta id = GST_TENSOR_MISSING_ID ∨
      (0 ≤ gst_tensor_meta_get_index_from_id tmeta id ∧
        (tmeta.tensor (gst_tensor_meta_get_index_from_id tmeta id)).id = id) := by
  unfold gst_tensor_meta_get_index_from_id
  cases hf : List.find? (fun (i : Nat) => (tmeta.tensor (Int.ofNat i)).id == id)
      (List.range tmeta.num_tensors) with
  | none => exact Or.inl rfl
  | some i =>
    refine Or.inr ⟨Int.ofNat_nonneg i, ?_⟩
    have := List.find?_some hf
    simpa using this

/-- Tag lookups see only the number of tensors and their tags. -/
theorem get_index_from_id_congr (m1 m2 : GstTensorMeta) (id : GQuark)
    (hn : m1.num_tensors = m2.num_tensors)
    (hid : ∀ j, (m1.tensor j).id = (m2.tensor j).id) :
    gst_tensor_meta_get_index_from_id m1 id = gst_tensor_meta_get_index_from_id m2 id := by
  unfold gst_tensor_meta_get_index_from_id
  have hf : (fun i : Nat => (m1.tensor (Int.ofNat i)).id == id)
      = (fun i : Nat => (m2.tensor (Int.ofNat i)).id == id) := by
    funext i
    rw [hid]
  rw [hn, hf]

/-- Two different tags resolve to different positions, unless both are
missing. -/
theorem get_index_from_id_ne (tmeta : GstTensorMeta) (id1 id2 : GQuark) (hne : id1 ≠ id2)
    (h2 : gst_tensor_meta_get_index_from_id tmeta id2 ≠ GST_TENSOR_MISSING_ID) :
    gst_tensor_meta_get_index_from_id tmeta id1 ≠ gst_tensor_meta_get_index_from_id tmeta id2 := by
  intro heq
  rcases get_index_from_id_spec tmeta id1 with h1 | ⟨-, h1⟩
  · exact h2 (heq ▸ h1)
  · rcases get_index_from_id_spec tmeta id2 with h2' | ⟨-, h2'⟩
    · exact h2 h2'
    · rw [heq] at h1
      exact hne (h1.symm.trans h2')

/-- The float reader looks at the tensor only for its element type. -/
theorem get_float_congr (t1 t2 : GstTensor) (map : GstMapInfo) (index : Nat)
    (ht : t1.data_type = t2.data_type) :
    get_float_at_index t1 map index = get_float_at_index t2 map index := by
  unfold get_float_at_index
  rw [ht]

theorem with_tensor_same (tmeta : GstTensorMeta) (pos : Int) (t : GstTensor) :
    (with_tensor tmeta pos t).tensor pos = t := by
  simp [with_tensor]

theorem with_tensor_other (tmeta : GstTensorMeta) (pos j : Int) (t : GstTensor)
    (hj : j ≠ pos) : (with_tensor tmeta pos t).tensor j = tmeta.tensor j := by
  simp [with_tensor, Function.update_noteq hj]

/-- Replacing a tensor by one with the same tag moves no tag. -/
theorem get_index_with_tensor (tmeta : GstTensorMeta) (pos : Int) (t : GstTensor)
    (id : GQuark) (hid : t.id = (tmeta.tensor pos).id) :
    gst_tensor_meta_get_index_from_id (with_tensor tmeta pos t) id
      = gst_tensor_meta_get_index_from_id tmeta id := by
  refine get_index_from_id_congr (with_tensor tmeta pos t) tmeta id rfl ?_
  intro j
  by_cases hj : j = pos
  · rw [hj, with_tensor_same, hid]
  · rw [with_tensor_other _ _ _ _ hj]

/-- Replacing the count tensor by one of the same tag and element type leaves
every turn of the loop as it was. -/
theorem detect_in_with_count (T : Target) (self : GstSsdObjectDetector) (w h : Nat)
    (tmeta : GstTensorMeta) (count : GstTensor) (bm sm : GstMapInfo) (i : Nat)
    (hfound : gst_tensor_meta_get_index_from_id tmeta
      (g_quark_from_string GST_MODEL_OBJECT_DETECTOR_NUM_DETECTIONS) ≠ GST_TENSOR_MISSING_ID)
    (hid : count.id = (tmeta.tensor (gst_tensor_meta_get_index_from_id tmeta
      (g_quark_from_string GST_MODEL_OBJECT_DETECTOR_NUM_DETECTIONS))).id)
    (hty : count.data_type = (tmeta.tensor (gst_tensor_meta_get_index_from_id tmeta
      (g_quark_from_string GST_MODEL_OBJECT_DETECTOR_NUM_DETECTIONS))).data_type) :
    detect_in T self w h (with_tensor tmeta (gst_tensor_meta_get_index_from_id tmeta
        (g_quark_from_string GST_MODEL_OBJECT_DETECTOR_NUM_DETECTIONS)) count) bm sm i
      = detect_in T self w h tmeta bm sm i := by
  have hb := get_index_from_id_ne tmeta
    (g_quark_from_string GST_MODEL_OBJECT_DETECTOR_BOXES)
    (g_quark_from_string GST_MODEL_OBJECT_DETECTOR_NUM_DETECTIONS) (by decide) hfound
  have hc := get_index_from_id_ne tmeta
    (g_quark_from_string GST_MODEL_OBJECT_DETECTOR_CLASSES)
    (g_quark_from_string GST_MODEL_OBJECT_DETECTOR_NUM_DETECTIONS) (by decide) hfound
  unfold detect_in
  simp only [get_index_with_tensor _ _ _ _ hid]
  unfold detect map_classes
  simp only [with_tensor_other _ _ _ _ hb, with_tensor_other _ _ _ _ hc, with_tensor_same,
    get_float_congr _ _ _ _ hty]

/-- C7: when the loop is reached with a count `n` and the scores view holds
only `k < n` complete 4-byte elements, the call returns (the function is
total), every index `i` with `k ≤ i < n` is skipped without emitting, the
detections added are those of the turns `0 .. k-1`, and the call adds exactly
what it adds for the same tensors with the count tensor's content replaced so
that it reads `k`. -/
theorem short_scores_are_skipped (T : Target) (self : GstSsdObjectDetector) (w h : Nat)
    (rmeta : GstAnalyticsRelationMeta) (tmeta : GstTensorMeta) (nm bm sm : GstMapInfo)
    (n k : Nat) (hr : Reached T tmeta nm bm sm n) (hk : sm.size / 4 = k) (hkn : k < n) :
    (∀ i, k ≤ i → i < n → detect_in T self w h tmeta bm sm i = none) ∧
    extract_bounding_boxes T self w h rmeta tmeta
      = rmeta ++ (List.range k).filterMap (detect_in T self w h tmeta bm sm) ∧
    ∀ (count : GstTensor) (cmap : GstMapInfo),
      count.id = (tmeta.tensor (gst_tensor_meta_get_index_from_id tmeta
        (g_quark_from_string GST_MODEL_OBJECT_DETECTOR_NUM_DETECTIONS))).id →
      count.data_type = (tmeta.tensor (gst_tensor_meta_get_index_from_id tmeta
        (g_quark_from_string GST_MODEL_OBJECT_DETECTOR_NUM_DETECTIONS))).data_type →
      gst_buffer_map count.data = some cmap →
      get_guint32_at_index T count cmap 0 = some k →
      extract_bounding_boxes T self w h rmeta
          (with_tensor tmeta (gst_tensor_meta_get_index_from_id tmeta
            (g_quark_from_string GST_MODEL_OBJECT_DETECTOR_NUM_DETECTIONS)) count)
        = extract_bounding_boxes T self w h rmeta tmeta := by
  have hn : n < 2 ^ 32 := get_guint32_lt T _ _ _ _ hr.count_read
  have hskip : ∀ i, k ≤ i → i < n → detect_in T self w h tmeta bm sm i = none := by
    intro i hki hin
    exact detect_eq_none_of_short T self w h tmeta _ _ _ bm sm _ i (by omega) (by omega)
  have hmain : extract_bounding_boxes T self w h rmeta tmeta
      = rmeta ++ (List.range k).filterMap (detect_in T self w h tmeta bm sm) := by
    rw [extract_of_reached T self w h rmeta tmeta nm bm sm n hr,
      filterMap_range_of_none _ k n (Nat.le_of_lt hkn) hskip]
  refine ⟨hskip, hmain, ?_⟩
  intro count cmap hid hty hmap hcount
  have hs := get_index_from_id_ne tmeta
    (g_quark_from_string GST_MODEL_OBJECT_DETECTOR_SCORES)
    (g_quark_from_string GST_MODEL_OBJECT_DETECTOR_NUM_DETECTIONS) (by decide) hr.numdetect_found
  have hb := get_index_from_id_ne tmeta
    (g_quark_from_string GST_MODEL_OBJECT_DETECTOR_BOXES)
    (g_quark_from_string GST_MODEL_OBJECT_DETECTOR_NUM_DETECTIONS) (by decide) hr.numdetect_found
  have hr2 : Reached T (with_tensor tmeta (gst_tensor_meta_get_index_from_id tmeta
      (g_quark_from_string GST_MODEL_OBJECT_DETECTOR_NUM_DETECTIONS)) count) cmap bm sm k := by
    constructor
    · rw [get_index_with_tensor _ _ _ _ hid]; exact hr.numdetect_found
    · rw [get_index_with_tensor _ _ _ _ hid]; exact hr.scores_found
    · rw [get_index_with_tensor _ _ _ _ hid, with_tensor_same]; exact hmap
    · rw [get_index_with_tensor _ _ _ _ hid, with_tensor_other _ _ _ _ hb]
      exact hr.boxes_mapped
    · rw [get_index_with_tensor _ _ _ _ hid, with_tensor_other _ _ _ _ hs]
      exact hr.scores_mapped
    · rw [get_index_with_tensor _ _ _ _ hid, with_tensor_same]; exact hcount
  rw [hmain, extract_of_reached T self w h rmeta _ cmap bm sm k hr2]
  congr 1
  apply congrArg (fun f => List.filterMap f (List.range k))
  funext i
  exact detect_in_with_count T self w h tmeta count bm sm i hr.numdetect_found hid hty

/-- The loop of `short_scores_group` is reached with the count `3`. -/
theorem short_scores_group_reached :
    Reached sseTarget short_scores_group ⟨true, bytes_of_words [3], 4⟩
      example_boxes_map example_scores_map 3 :=
  ⟨by decide, by decide, rfl, rfl, rfl, by decide⟩

/-- The claim on `short_scores_group`: a count of `3` over one score. -/
theorem short_scores_are_skipped_witness :
    Reached sseTarget short_scores_group ⟨true, bytes_of_words [3], 4⟩
        example_boxes_map example_scores_map 3 ∧
      example_scores_map.size / 4 = 1 ∧ 1 < 3 ∧
      extract_bounding_boxes sseTarget gst_ssd_object_detector_init 100 200 []
          short_scores_group
        = [] ++ (List.range 1).filterMap
            (detect_in sseTarget gst_ssd_object_detector_init 100 200 short_scores_group
              example_boxes_map example_scores_map) :=
  ⟨short_scores_group_reached, rfl, by decide,
    (short_scores_are_skipped sseTarget gst_ssd_object_detector_init 100 200 []
      short_scores_group ⟨true, bytes_of_words [3], 4⟩ example_boxes_map example_scores_map
      3 1 short_scores_group_reached rfl (by decide)).2.1⟩

/-! ## Mapping failure -/

/-- C8, as stated, fails: on a frame whose boxes tensor cannot be mapped,
`gst_ssd_object_detector_process` returns `TRUE` and
`gst_ssd_object_detector_transform_ip` returns `GST_FLOW_OK`. -/
theorem map_failure_is_reported_as_success :
    gst_buffer_map (unmappable_boxes_group.tensor 0).data = none ∧
      (gst_ssd_object_detector_process sseTarget gst_ssd_object_detector_init
        unmappable_boxes_frame).1 = true ∧
      (gst_ssd_object_detector_transform_ip sseTarget gst_ssd_object_detector_init false
        unmappable_boxes_frame).1 = .GST_FLOW_OK := by
  refine ⟨rfl, ?_, ?_⟩ <;> decide

/-- `gst_ssd_object_detector_process` returns `TRUE` on every frame. -/
theorem process_returns_true (T : Target) (self : GstSsdObjectDetector)
    (buf : GstVideoBuffer) : (gst_ssd_object_detector_process T self buf).1 = true := by
  unfold gst_ssd_object_detector_process
  split <;> rfl

/-- C8 (amended): whenever mapping the boxes tensor, the scores tensor or the
num-detections tensor fails, `extract_bounding_boxes` adds no detection to the
output; the failure is not reported to the caller:
`gst_ssd_object_detector_process` returns `TRUE` and
`gst_ssd_object_detector_transform_ip` returns `GST_FLOW_OK` for every
frame. -/
theorem map_failure_adds_nothing (T : Target) (self : GstSsdObjectDetector) (w h : Nat)
    (rmeta : GstAnalyticsRelationMeta) (tmeta : GstTensorMeta)
    (hfail : gst_buffer_map (tmeta.tensor (gst_tensor_meta_get_index_from_id tmeta
        (g_quark_from_string GST_MODEL_OBJECT_DETECTOR_BOXES))).data = none ∨
      gst_buffer_map (tmeta.tensor (gst_tensor_meta_get_index_from_id tmeta
        (g_quark_from_string GST_MODEL_OBJECT_DETECTOR_SCORES))).data = none ∨
      gst_buffer_map (tmeta.tensor (gst_tensor_meta_get_index_from_id tmeta
        (g_quark_from_string GST_MODEL_OBJECT_DETECTOR_NUM_DETECTIONS))).data = none) :
    extract_bounding_boxes T self w h rmeta tmeta = rmeta ∧
      ∀ (buf : GstVideoBuffer) (passthrough : Bool),
        (gst_ssd_object_detector_process T self buf).1 = true ∧
        (gst_ssd_object_detector_transform_ip T self passthrough buf).1 = .GST_FLOW_OK := by
  constructor
  · apply extract_of_not_reached
    rintro ⟨nm, bm, sm, n, hr⟩
    rcases hfail with hb | hs | hn
    · rw [hr.boxes_mapped] at hb
      exact absurd hb (by simp)
    · rw [hr.scores_mapped] at hs
      exact absurd hs (by simp)
    · rw [hr.numdetect_mapped] at hn
      exact absurd hn (by simp)
  · intro buf passthrough
    refine ⟨process_returns_true T self buf, ?_⟩
    unfold gst_ssd_object_detector_transform_ip
    cases passthrough
    · simp [process_returns_true T self buf]
    · rfl

/-- The amended claim on the frame whose boxes tensor cannot be mapped. -/
theorem map_failure_adds_nothing_witness :
    gst_buffer_map (unmappable_boxes_group.tensor (gst_tensor_meta_get_index_from_id
        unmappable_boxes_group
        (g_quark_from_string GST_MODEL_OBJECT_DETECTOR_BOXES))).data = none ∧
      extract_bounding_boxes sseTarget gst_ssd_object_detector_init 100 200 []
        unmappable_boxes_group = [] :=
  ⟨rfl, (map_failure_adds_nothing sseTarget gst_ssd_object_detector_init 100 200 []
    unmappable_boxes_group (Or.inl rfl)).1⟩

/-! ## Choice of the tensor group -/

/-- The iteration finds the first valid group among the metas it walks. -/
theorem find_tensor_meta_eq_find (metas : List GstMeta) :
    find_tensor_meta metas = (tensor_groups metas).find? is_valid_ssd_group := by
  induction metas with
  | nil => rfl
  | cons m rest ih =>
    cases m with
    | other => simpa [find_tensor_meta, tensor_groups] using ih
    | tensor_meta g =>
      have hcons : tensor_groups (GstMeta.tensor_meta g :: rest) = g :: tensor_groups rest := by
        simp [tensor_groups]
      rw [hcons, List.find?_cons]
      unfold find_tensor_meta
      by_cases hv : is_valid_ssd_group g = true
      · rw [hv]
        have hv' := hv
        simp only [is_valid_ssd_group, decide_eq_true_eq] at hv'
        obtain ⟨hnum, hb, hs, hn, hc⟩ := hv'
        have h1 : ¬ (g.num_tensors ≠ 3 ∧ g.num_tensors ≠ 4) := by omega
        have h2 : ¬ (gst_tensor_meta_get_index_from_id g
              (g_quark_from_string GST_MODEL_OBJECT_DETECTOR_BOXES) = GST_TENSOR_MISSING_ID ∨
            gst_tensor_meta_get_index_from_id g
              (g_quark_from_string GST_MODEL_OBJECT_DETECTOR_SCORES) = GST_TENSOR_MISSING_ID ∨
            gst_tensor_meta_get_index_from_id g
              (g_quark_from_string GST_MODEL_OBJECT_DETECTOR_NUM_DETECTIONS)
                = GST_TENSOR_MISSING_ID) := by
          rintro (h | h | h)
          · exact hb h
          · exact hs h
          · exact hn h
        have h3 : ¬ (g.num_tensors = 4 ∧ gst_tensor_meta_get_index_from_id g
              (g_quark_from_string GST_MODEL_OBJECT_DETECTOR_CLASSES)
                = GST_TENSOR_MISSING_ID) := by
          rintro ⟨h4, h⟩
          exact hc h4 h
        simp only [h1, h2, h3, if_false]
      · have hv2 : is_valid_ssd_group g = false := by simpa using hv
        rw [hv2]
        simp only [is_valid_ssd_group, decide_eq_false_iff_not] at hv2
        simp only []
        rw [← ih]
        split_ifs with h1 h2 h3
        · rfl
        · rfl
        · rfl
        · exfalso
          apply hv2
          push_neg at h2 h3
          refine ⟨by omega, h2.1, h2.2.1, h2.2.2, h3⟩

/-- A frame without any tensor meta has no tensor group. -/
theorem tensor_groups_of_no_tensor_meta (buf : GstVideoBuffer)
    (hno : has_tensor_meta buf = false) : tensor_groups buf.metas = [] := by
  unfold tensor_groups
  rw [List.filterMap_eq_nil_iff]
  intro m hm
  unfold has_tensor_meta at hno
  rw [List.any_eq_false] at hno
  have := hno m hm
  cases m with
  | other => rfl
  | tensor_meta g => simp at this

/-- C9: `gst_ssd_object_detector_get_tensor_meta` returns the first group, in
iteration order, that satisfies the condition: it returns `g` exactly when `g`
satisfies it and sits in the collection after groups that all fail it, and it
returns none exactly when no group of the collection satisfies it. -/
theorem first_valid_group_is_chosen (buf : GstVideoBuffer) :
    gst_ssd_object_detector_get_tensor_meta buf
        = (tensor_groups buf.metas).find? is_valid_ssd_group ∧
    (∀ g, gst_ssd_object_detector_get_tensor_meta buf = some g ↔
      is_valid_ssd_group g = true ∧ ∃ earlier later,
        tensor_groups buf.metas = earlier ++ g :: later ∧
        ∀ e ∈ earlier, is_valid_ssd_group e = false) ∧
    (gst_ssd_object_detector_get_tensor_meta buf = none ↔
      ∀ g ∈ tensor_groups buf.metas, is_valid_ssd_group g = false) := by
  have hfind : gst_ssd_object_detector_get_tensor_meta buf
      = (tensor_groups buf.metas).find? is_valid_ssd_group := by
    unfold gst_ssd_object_detector_get_tensor_meta
    cases hhas : has_tensor_meta buf with
    | true => simpa using find_tensor_meta_eq_find buf.metas
    | false => simp [tensor_groups_of_no_tensor_meta buf hhas]
  refine ⟨hfind, ?_, ?_⟩
  · intro g
    rw [hfind, List.find?_eq_some]
    simp
  · rw [hfind, List.find?_eq_none]
    simp

/-! ## Label file -/

/-- The read loop appends the interned lines in file order. -/
theorem read_lines_eq (lines : List String) (array : List GQuark) :
    read_lines lines array = array ++ lines.map g_quark_from_string := by
  induction lines generalizing array with
  | nil => simp [read_lines]
  | cons line rest ih => simp [read_lines, ih]

/-- C10: setting the label-file property to a file that cannot be opened, that
fails mid-read, or that yields zero lines leaves the detector (label table and
stored path included) exactly as it was; a load that yields at least one line
without error stores the path and replaces the table by the interned lines of
the new file in file order, whatever the old table was, and leaves the
thresholds alone. -/
theorem label_file_replaced_only_on_success (fs : String → GFileContent)
    (self : GstSsdObjectDetector) (filename : String) :
    (fs filename = .unopenable →
      gst_ssd_object_detector_set_property fs self (.PROP_LABEL_FILE filename) = self) ∧
    (∀ lines, fs filename = .stream lines true →
      gst_ssd_object_detector_set_property fs self (.PROP_LABEL_FILE filename) = self) ∧
    (fs filename = .stream [] false →
      gst_ssd_object_detector_set_property fs self (.PROP_LABEL_FILE filename) = self) ∧
    (∀ lines, lines ≠ [] → fs filename = .stream lines false →
      gst_ssd_object_detector_set_property fs self (.PROP_LABEL_FILE filename)
        = { self with label_file := some filename,
                      labels := some (lines.map g_quark_from_string) }) := by
  refine ⟨?_, ?_, ?_, ?_⟩
  · intro hf
    simp [gst_ssd_object_detector_set_property, hf, read_labels]
  · intro lines hf
    simp [gst_ssd_object_detector_set_property, hf, read_labels]
  · intro hf
    simp [gst_ssd_object_detector_set_property, hf, read_labels, read_lines]
  · intro lines hne hf
    simp [gst_ssd_object_detector_set_property, hf, read_labels, read_lines_eq, hne]

/-! ## Unsupported element types -/

/-- A float read on a tensor of an unsupported element type fails. -/
theorem get_float_of_other (tensor : GstTensor) (map : GstMapInfo) (index code : Nat)
    (hty : tensor.data_type = .other code) : get_float_at_index tensor map index = none := by
  unfold get_float_at_index
  rw [hty]

/-- An integer read on a tensor of an unsupported element type fails. -/
theorem get_guint32_of_other (T : Target) (tensor : GstTensor) (map : GstMapInfo)
    (index code : Nat) (hty : tensor.data_type = .other code) :
    get_guint32_at_index T tensor map index = none := by
  unfold get_guint32_at_index
  rw [hty]

/-- A num-detections tensor of an unsupported element type ends the call
before the loop, as a mapping failure does: nothing is added. -/
theorem unsupported_count_type_adds_nothing (T : Target) (self : GstSsdObjectDetector)
    (w h : Nat) (rmeta : GstAnalyticsRelationMeta) (tmeta : GstTensorMeta) (code : Nat)
    (hty : (tmeta.tensor (gst_tensor_meta_get_index_from_id tmeta
      (g_quark_from_string GST_MODEL_OBJECT_DETECTOR_NUM_DETECTIONS))).data_type
        = .other code) :
    extract_bounding_boxes T self w h rmeta tmeta = rmeta := by
  apply extract_of_not_reached
  rintro ⟨nm, bm, sm, n, hr⟩
  have hread := hr.count_read
  rw [get_guint32_of_other T _ nm 0 code hty] at hread
  exact absurd hread (by simp)

/-- A boxes tensor of an unsupported element type makes every turn of the loop
a `continue`: nothing is added, as after a mapping failure. -/
theorem unsupported_boxes_type_adds_nothing (T : Target) (self : GstSsdObjectDetector)
    (w h : Nat) (rmeta : GstAnalyticsRelationMeta) (tmeta : GstTensorMeta) (code : Nat)
    (hty : (tmeta.tensor (gst_tensor_meta_get_index_from_id tmeta
      (g_quark_from_string GST_MODEL_OBJECT_DETECTOR_BOXES))).data_type = .other code) :
    extract_bounding_boxes T self w h rmeta tmeta = rmeta := by
  obtain ⟨added, heq, hall⟩ := extract_appends T self w h rmeta tmeta
  have hnil : added = [] := by
    apply List.eq_nil_iff_forall_not_mem.mpr
    intro d hd
    obtain ⟨nm, bm, sm, n, i, -, -, hdet⟩ := hall d hd
    obtain ⟨score, y, x, bheight, bwidth, -, -, hy, -, -, -, -, -⟩ :=
      (detect_eq_some _ _ _ _ _ _ _ _ _ _ _ _ _).mp hdet
    rw [get_float_of_other _ bm _ code hty] at hy
    exact absurd hy (by simp)
  rw [heq, hnil, List.append_nil]

set_option maxRecDepth 100000 in
set_option exponentiation.threshold 2000 in
/-- C11: the declared element type of the scores tensor is never looked at.
With a scores tensor of an unsupported type (and a `UINT32` count of `1`) the
call adds a detection, whose score is the scores word `0x3F000000` decoded
with the count tensor's type; a mapping failure of that same scores tensor adds
nothing. -/
theorem unsupported_scores_type_still_emits :
    (untyped_scores_group (words_buffer [0x3F000000])).tensor 1
        = ⟨g_quark_from_string GST_MODEL_OBJECT_DETECTOR_SCORES, .other 0,
            words_buffer [0x3F000000]⟩ ∧
    extract_bounding_boxes sseTarget gst_ssd_object_detector_init 100 200 []
        (untyped_scores_group (words_buffer [0x3F000000]))
      = [⟨none, 20, 20, 50, 100, ⟨0x4E7C0000⟩⟩] ∧
    extract_bounding_boxes sseTarget gst_ssd_object_detector_init 100 200 []
        (untyped_scores_group unmappable_buffer) = [] := by
  refine ⟨rfl, ?_, ?_⟩ <;> decide

/-! ## Pixel box -/

set_option maxRecDepth 100000 in
set_option exponentiation.threshold 2000 in
/-- C12, as stated, fails: for the candidate `(y_min, x_min, y_max, x_max) =
(0.1, 3e9, 0.6, 0.7)` in a `100 x 200` frame, `trunc (x_min * frame_width)` is
`299999985664`, which no `gint` holds; the detection is emitted with the
target's result of the out-of-range conversion (`-2^31` on x86-64 SSE) as `x`
and as `width`. -/
theorem pixel_box_out_of_range :
    extract_bounding_boxes sseTarget gst_ssd_object_detector_init 100 200 []
        (boxes_group 0x3DCCCCCD 0x4F32D05E 0x3F19999A 0x3F333333)
      = [⟨none, -2147483648, 20, -2147483648, 100, ⟨0x3F000000⟩⟩] ∧
    (F32.mul ⟨0x4F32D05E⟩ (F32.ofNat 100)).trunc = 299999985664 := by
  decide

set_option maxRecDepth 100000 in
set_option exponentiation.threshold 2000 in
/-- The box is not clipped to the frame: the candidate `(0, 0, 0.5, 1.5)` in a
`100 x 200` frame is emitted with width `150`. -/
theorem pixel_box_not_clipped :
    extract_bounding_boxes sseTarget gst_ssd_object_detector_init 100 200 []
        (boxes_group 0 0 0x3F000000 0x3FC00000)
      = [⟨none, 0, 0, 150, 100, ⟨0x3F000000⟩⟩] := by
  decide

/-- A value that fits converts to its truncation on every target. -/
theorem F32.toGint_of_fits_gint (T : Target) (v : F32) (hv : fits_gint v) :
    F32.toGint T v = v.trunc :=
  F32.toGint_of_fits T v v.trunc hv.1 hv.2.1 rfl hv.2.2.1 hv.2.2.2

/-! ## Monotonicity in the score threshold -/

/-- A score below a threshold is below every larger threshold. -/
theorem F32.lt_of_lt_of_le (s t1 t2 : F32) (hle : F32.le t1 t2 = true)
    (hlt : F32.lt s t1 = true) : F32.lt s t2 = true := by
  simp only [F32.le, F32.lt, Bool.and_eq_true, Bool.not_eq_true', decide_eq_true_eq]
    at hle hlt ⊢
  exact ⟨⟨hlt.1.1, hle.1.2⟩, Int.lt_of_lt_of_le hlt.2 hle.2⟩

/-- A turn of the loop that emits under the larger score threshold emits the
same record under the smaller one. -/
theorem detect_of_larger_threshold (T : Target) (self : GstSsdObjectDetector) (w h : Nat)
    (tmeta : GstTensorMeta) (ci bi ni : Int) (bm sm cm : GstMapInfo) (i : Nat)
    (t1 t2 : F32) (hle : F32.le t1 t2 = true) (d : GstAnalyticsODMtd)
    (hd : detect T { self with score_threshold := t2 } w h tmeta ci bi ni bm sm cm i
      = some d) :
    detect T { self with score_threshold := t1 } w h tmeta ci bi ni bm sm cm i = some d := by
  obtain ⟨score, y, x, bheight, bwidth, h1, h2, h3, h4, h5, h6, h7, rfl⟩ :=
    (detect_eq_some _ _ _ _ _ _ _ _ _ _ _ _ _).mp hd
  refine (detect_eq_some _ _ _ _ _ _ _ _ _ _ _ _ _).mpr
    ⟨score, y, x, bheight, bwidth, h1, ?_, h3, h4, h5, h6, h7, rfl⟩
  cases hlt : F32.lt score t1 with
  | false => rfl
  | true =>
    have h2' : F32.lt score t2 = false := h2
    rw [F32.lt_of_lt_of_le score t1 t2 hle hlt] at h2'
    exact absurd h2' (by simp)

/-- Turns that emit less often, and then the same record, add a sub-list. -/
theorem filterMap_sublist_of_imp {α β : Type} (f g : α → Option β) (l : List α)
    (himp : ∀ a d, f a = some d → g a = some d) :
    (l.filterMap f).Sublist (l.filterMap g) := by
  induction l with
  | nil => exact List.Sublist.slnil
  | cons a l ih =>
    cases hf : f a with
    | none =>
      cases hg : g a with
      | none => simpa [List.filterMap_cons, hf, hg] using ih
      | some e =>
        simp only [List.filterMap_cons, hf, hg]
        exact List.Sublist.cons e ih
    | some d =>
      simp only [List.filterMap_cons, hf, himp a d hf]
      exact List.Sublist.cons₂ d ih

/-- C13: for score thresholds `t1 <= t2`, the detections that
`extract_bounding_boxes` emits with `t2` form a sub-list (same records, same
relative order) of those it emits with `t1`, for every tensor group, frame
size, label table and size threshold. -/
theorem score_threshold_monotone (T : Target) (self : GstSsdObjectDetector) (w h : Nat)
    (tmeta : GstTensorMeta) (t1 t2 : F32) (hle : F32.le t1 t2 = true) :
    (extract_bounding_boxes T { self with score_threshold := t2 } w h [] tmeta).Sublist
      (extract_bounding_boxes T { self with score_threshold := t1 } w h [] tmeta) := by
  by_cases hr : ∃ nm bm sm n, Reached T tmeta nm bm sm n
  · obtain ⟨nm, bm, sm, n, hr⟩ := hr
    rw [extract_of_reached T _ w h [] tmeta nm bm sm n hr,
      extract_of_reached T _ w h [] tmeta nm bm sm n hr]
    simp only [List.nil_append]
    apply filterMap_sublist_of_imp
    intro i d hd
    exact detect_of_larger_threshold T self w h tmeta _ _ _ bm sm _ i t1 t2 hle d hd
  · rw [extract_of_not_reached T _ w h [] tmeta hr, extract_of_not_reached T _ w h [] tmeta hr]

set_option maxRecDepth 100000 in
set_option exponentiation.threshold 2000 in
/-- The claim for the thresholds `0.3 <= 0.9` on the group with one candidate
of score `0.5`, which is emitted with `0.3` and filtered with `0.9`. -/
theorem score_threshold_monotone_witness :
    F32.le ⟨0x3E99999A⟩ ⟨0x3F666666⟩ = true ∧
      (extract_bounding_boxes sseTarget
          { gst_ssd_object_detector_init with score_threshold := ⟨0x3F666666⟩ } 100 200 []
          (single_detection_group .GST_TENSOR_TYPE_FLOAT32 0x3F800000)).Sublist
        (extract_bounding_boxes sseTarget
          { gst_ssd_object_detector_init with score_threshold := ⟨0x3E99999A⟩ } 100 200 []
          (single_detection_group .GST_TENSOR_TYPE_FLOAT32 0x3F800000)) :=
  ⟨by decide,
    score_threshold_monotone sseTarget gst_ssd_object_detector_init 100 200
      (single_detection_group .GST_TENSOR_TYPE_FLOAT32 0x3F800000)
      ⟨0x3E99999A⟩ ⟨0x3F666666⟩ (by decide)⟩

/-! ## Missing-tensor guard -/

/-- What a candidate that is kept went through. -/
theorem spec_candidate_eq_some (T : Target) (st zt : F32) (w h : Nat)
    (score_tensor boxes_tensor : GstTensor) (bm sm : GstMapInfo) (i : Nat)
    (c : GstAnalyticsODMtd) :
    spec_candidate T st zt w h score_tensor boxes_tensor bm sm i = some c ↔
    ∃ score y x bheight bwidth,
      get_float_at_index score_tensor sm (to_guint i) = some score ∧
      F32.lt score st = false ∧
      get_float_at_index boxes_tensor bm (to_guint (i * 4)) = some y ∧
      get_float_at_index boxes_tensor bm (to_guint (i * 4 + 1)) = some x ∧
      get_float_at_index boxes_tensor bm (to_guint (i * 4 + 2)) = some bheight ∧
      get_float_at_index boxes_tensor bm (to_guint (i * 4 + 3)) = some bwidth ∧
      F32.gt (F32.mul (CLAMP01 bwidth) (CLAMP01 bheight)) zt = false ∧
      c = ⟨none,
        F32.toGint T (F32.mul x (F32.ofNat w)),
        F32.toGint T (F32.mul y (F32.ofNat h)),
        F32.toGint T (F32.sub (F32.mul bwidth (F32.ofNat w))
          (F32.ofInt (F32.toGint T (F32.mul x (F32.ofNat w))))),
        F32.toGint T (F32.sub (F32.mul bheight (F32.ofNat h))
          (F32.ofInt (F32.toGint T (F32.mul y (F32.ofNat h))))),
        score⟩ := by
  unfold spec_candidate
  constructor
  · intro hc
    split at hc
    · rename_i score y x bheight bwidth h1 h3 h4 h5 h6
      split_ifs at hc with hf
      push_neg at hf
      cases hc
      exact ⟨score, y, x, bheight, bwidth, h1, by simpa using hf.1, h3, h4, h5, h6,
        by simpa using hf.2, rfl⟩
    · exact absurd hc (by simp)
  · rintro ⟨score, y, x, bheight, bwidth, h1, h2, h3, h4, h5, h6, h7, rfl⟩
    simp [h1, h2, h3, h4, h5, h6, h7]

/-- A turn of the loop of the code is the detection of the spec for that
index. -/
theorem detect_in_eq_spec_detection (T : Target) (self : GstSsdObjectDetector) (w h : Nat)
    (tmeta : GstTensorMeta) (bm sm : GstMapInfo) (i : Nat) :
    detect_in T self w h tmeta bm sm i = spec_detection T self w h tmeta bm sm i := by
  apply Option.ext
  intro d
  unfold detect_in spec_detection
  simp only [Option.mem_def]
  rw [detect_eq_some, Option.map_eq_some']
  constructor
  · rintro ⟨score, y, x, bheight, bwidth, h1, h2, h3, h4, h5, h6, h7, rfl⟩
    refine ⟨_, (spec_candidate_eq_some _ _ _ _ _ _ _ _ _ _ _).mpr
      ⟨score, y, x, bheight, bwidth, h1, h2, h3, h4, h5, h6, h7, rfl⟩, ?_⟩
    simp only [label_of_eq_spec_label]
  · rintro ⟨c, hc, rfl⟩
    obtain ⟨score, y, x, bheight, bwidth, h1, h2, h3, h4, h5, h6, h7, rfl⟩ :=
      (spec_candidate_eq_some _ _ _ _ _ _ _ _ _ _ _).mp hc
    exact ⟨score, y, x, bheight, bwidth, h1, h2, h3, h4, h5, h6, h7,
      by simp only [label_of_eq_spec_label]⟩

/-- When the loop is reached with the count `n`, the call appends the
detections of the spec for the indices `0 .. n-1`, in that order, read from
the mapped boxes and scores buffers. -/
theorem extract_eq_spec_detections (T : Target) (self : GstSsdObjectDetector) (w h : Nat)
    (rmeta : GstAnalyticsRelationMeta) (tmeta : GstTensorMeta)
    (nm bm sm : GstMapInfo) (n : Nat) (hr : Reached T tmeta nm bm sm n) :
    extract_bounding_boxes T self w h rmeta tmeta
      = rmeta ++ (List.range n).filterMap (spec_detection T self w h tmeta bm sm) := by
  rw [extract_of_reached T self w h rmeta tmeta nm bm sm n hr]
  congr 1
  apply congrArg (fun f => List.filterMap f (List.range n))
  funext i
  exact detect_in_eq_spec_detection T self w h tmeta bm sm i

/-- A detection of the spec has the box of its candidate: it was read at the
indices `4i .. 4i+3` of the boxes view and converted as the claim says. -/
theorem spec_detection_box (T : Target) (self : GstSsdObjectDetector) (w h : Nat)
    (tmeta : GstTensorMeta) (bm sm : GstMapInfo) (i : Nat) (d : GstAnalyticsODMtd)
    (hd : spec_detection T self w h tmeta bm sm i = some d) :
    ∃ y_min x_min y_max x_max,
      get_float_at_index (tmeta.tensor (gst_tensor_meta_get_index_from_id tmeta
        (g_quark_from_string GST_MODEL_OBJECT_DETECTOR_BOXES))) bm
          (to_guint (i * 4)) = some y_min ∧
      get_float_at_index (tmeta.tensor (gst_tensor_meta_get_index_from_id tmeta
        (g_quark_from_string GST_MODEL_OBJECT_DETECTOR_BOXES))) bm
          (to_guint (i * 4 + 1)) = some x_min ∧
      get_float_at_index (tmeta.tensor (gst_tensor_meta_get_index_from_id tmeta
        (g_quark_from_string GST_MODEL_OBJECT_DETECTOR_BOXES))) bm
          (to_guint (i * 4 + 2)) = some y_max ∧
      get_float_at_index (tmeta.tensor (gst_tensor_meta_get_index_from_id tmeta
        (g_quark_from_string GST_MODEL_OBJECT_DETECTOR_BOXES))) bm
          (to_guint (i * 4 + 3)) = some x_max ∧
      (fits_gint (F32.mul x_min (F32.ofNat w)) →
        d.x = (F32.mul x_min (F32.ofNat w)).trunc) ∧
      (fits_gint (F32.mul y_min (F32.ofNat h)) →
        d.y = (F32.mul y_min (F32.ofNat h)).trunc) ∧
      (fits_gint (F32.sub (F32.mul x_max (F32.ofNat w)) (F32.ofInt d.x)) →
        d.w = (F32.sub (F32.mul x_max (F32.ofNat w)) (F32.ofInt d.x)).trunc) ∧
      (fits_gint (F32.sub (F32.mul y_max (F32.ofNat h)) (F32.ofInt d.y)) →
        d.h = (F32.sub (F32.mul y_max (F32.ofNat h)) (F32.ofInt d.y)).trunc) := by
  unfold spec_detection at hd
  obtain ⟨c, hc, rfl⟩ := Option.map_eq_some'.mp hd
  obtain ⟨score, y, x, bheight, bwidth, -, -, hy, hx, hh, hw, -, rfl⟩ :=
    (spec_candidate_eq_some _ _ _ _ _ _ _ _ _ _ _).mp hc
  exact ⟨y, x, bheight, bwidth, hy, hx, hh, hw,
    fun hf => F32.toGint_of_fits_gint T _ hf,
    fun hf => F32.toGint_of_fits_gint T _ hf,
    fun hf => F32.toGint_of_fits_gint T _ hf,
    fun hf => F32.toGint_of_fits_gint T _ hf⟩

/-! ## Label resolution, against the detection of the spec -/

/-- C6: every detection that `extract_bounding_boxes` adds was emitted for an
index `i` and carries the label `labels[class_id]` exactly in the case where a
label table is configured, the classes tensor is present and mapped, the `u32`
read at index `i` of the classes tensor succeeds and `class_id` is below the
table length, and the quark `0` in every other case.  The detection is emitted
whatever the label step gives: when the loop is reached with the count `n`,
the call appends, for the indices `0 .. n-1` in order, exactly the candidates
that `spec_candidate` keeps, each with that label, and `spec_candidate` has
neither the label table nor the classes tensor among its inputs; in
particular the detections emitted, up to their labels, are those emitted with
no label table at all. -/
theorem label_resolution (T : Target) (self : GstSsdObjectDetector) (w h : Nat)
    (rmeta : GstAnalyticsRelationMeta) (tmeta : GstTensorMeta) :
    (∃ added, extract_bounding_boxes T self w h rmeta tmeta = rmeta ++ added ∧
      ∀ d ∈ added, ∃ bm sm i, detect_in T self w h tmeta bm sm i = some d ∧
        d.label = spec_label T self tmeta i) ∧
    ((extract_bounding_boxes T self w h [] tmeta).map without_label
      = (extract_bounding_boxes T { self with labels := none } w h [] tmeta).map
          without_label) ∧
    (∀ nm bm sm n, Reached T tmeta nm bm sm n →
      extract_bounding_boxes T self w h rmeta tmeta
        = rmeta ++ (List.range n).filterMap (spec_detection T self w h tmeta bm sm)) ∧
    (∀ bm sm i d, spec_detection T self w h tmeta bm sm i = some d ↔
      ∃ c, spec_candidate T self.score_threshold self.size_threshold w h
          (tmeta.tensor (gst_tensor_meta_get_index_from_id tmeta
            (g_quark_from_string GST_MODEL_OBJECT_DETECTOR_NUM_DETECTIONS)))
          (tmeta.tensor (gst_tensor_meta_get_index_from_id tmeta
            (g_quark_from_string GST_MODEL_OBJECT_DETECTOR_BOXES)))
          bm sm i = some c ∧
        d = { c with label := spec_label T self tmeta i }) := by
  refine ⟨?_, extract_without_label T self w h tmeta, ?_, ?_⟩
  · obtain ⟨added, heq, hall⟩ := extract_appends T self w h rmeta tmeta
    refine ⟨added, heq, ?_⟩
    intro d hd
    obtain ⟨nm, bm, sm, n, i, -, -, hdet⟩ := hall d hd
    refine ⟨bm, sm, i, hdet, ?_⟩
    obtain ⟨score, y, x, bheight, bwidth, -, -, -, -, -, -, -, rfl⟩ :=
      (detect_eq_some _ _ _ _ _ _ _ _ _ _ _ _ _).mp hdet
    exact label_of_eq_spec_label T self tmeta i
  · intro nm bm sm n hr
    exact extract_eq_spec_detections T self w h rmeta tmeta nm bm sm n hr
  · intro bm sm i d
    unfold spec_detection
    rw [Option.map_eq_some']
    constructor
    · rintro ⟨c, hc, rfl⟩
      exact ⟨c, hc, rfl⟩
    · rintro ⟨c, hc, rfl⟩
      exact ⟨c, hc, rfl⟩

set_option maxRecDepth 100000 in
set_option exponentiation.threshold 2000 in
/-- With a three-entry label table configured, the candidate is emitted with
the quark `0` when the group has no classes tensor, when the classes buffer
does not map, and when the classes view is too short for the read. -/
theorem unresolved_label_examples :
    extract_bounding_boxes sseTarget labelled_detector 100 200 []
        (single_detection_group .GST_TENSOR_TYPE_FLOAT32 0x3F800000)
      = [⟨none, 20, 20, 50, 100, ⟨0x3F000000⟩⟩] ∧
    extract_bounding_boxes sseTarget labelled_detector 100 200 []
        (classes_buffer_group unmappable_buffer)
      = [⟨none, 20, 20, 50, 100, ⟨0x3F000000⟩⟩] ∧
    extract_bounding_boxes sseTarget labelled_detector 100 200 []
        (classes_buffer_group (words_buffer []))
      = [⟨none, 20, 20, 50, 100, ⟨0x3F000000⟩⟩] := by
  decide

/-! ## Pixel box, against the detection of the spec -/

/-- C12 (amended): when the loop is reached, with `boxes_map` and
`scores_map` the views that mapping the Boxes and Scores tensors gave and `n`
the count, the call appends for the indices `i = 0 .. n-1`, in order, the
detections of `spec_detection`; such a detection has `(y_min, x_min, y_max,
x_max)` read in that order from the boxes view at the 32-bit indices
`4i .. 4i+3`, and, evaluating in binary32 (frame sizes and the truncated `x`,
`y` converted to `float`, products and differences rounded to nearest), its
pixel box is `x = trunc (x_min * frame_width)`,
`y = trunc (y_min * frame_height)`, `width = trunc (x_max * frame_width - x)`
and `height = trunc (y_max * frame_height - y)`, each of them whenever the
value to truncate is finite and its truncation fits a `gint`; the subtraction
uses the emitted `x` and `y`, and nothing is clipped to the frame.  When the
loop is not reached nothing is appended. -/
theorem pixel_box_is_truncated_scaling (T : Target) (self : GstSsdObjectDetector)
    (w h : Nat) (rmeta : GstAnalyticsRelationMeta) (tmeta : GstTensorMeta) :
    (∀ nm boxes_map scores_map n, Reached T tmeta nm boxes_map scores_map n →
      gst_buffer_map (tmeta.tensor (gst_tensor_meta_get_index_from_id tmeta
        (g_quark_from_string GST_MODEL_OBJECT_DETECTOR_BOXES))).data = some boxes_map ∧
      gst_buffer_map (tmeta.tensor (gst_tensor_meta_get_index_from_id tmeta
        (g_quark_from_string GST_MODEL_OBJECT_DETECTOR_SCORES))).data = some scores_map ∧
      extract_bounding_boxes T self w h rmeta tmeta
        = rmeta ++ (List.range n).filterMap
            (spec_detection T self w h tmeta boxes_map scores_map)) ∧
    ((¬ ∃ nm boxes_map scores_map n, Reached T tmeta nm boxes_map scores_map n) →
      extract_bounding_boxes T self w h rmeta tmeta = rmeta) ∧
    (∀ boxes_map scores_map i d,
      spec_detection T self w h tmeta boxes_map scores_map i = some d →
      ∃ y_min x_min y_max x_max,
        get_float_at_index (tmeta.tensor (gst_tensor_meta_get_index_from_id tmeta
          (g_quark_from_string GST_MODEL_OBJECT_DETECTOR_BOXES))) boxes_map
            (to_guint (i * 4)) = some y_min ∧
        get_float_at_index (tmeta.tensor (gst_tensor_meta_get_index_from_id tmeta
          (g_quark_from_string GST_MODEL_OBJECT_DETECTOR_BOXES))) boxes_map
            (to_guint (i * 4 + 1)) = some x_min ∧
        get_float_at_index (tmeta.tensor (gst_tensor_meta_get_index_from_id tmeta
          (g_quark_from_string GST_MODEL_OBJECT_DETECTOR_BOXES))) boxes_map
            (to_guint (i * 4 + 2)) = some y_max ∧
        get_float_at_index (tmeta.tensor (gst_tensor_meta_get_index_from_id tmeta
          (g_quark_from_string GST_MODEL_OBJECT_DETECTOR_BOXES))) boxes_map
            (to_guint (i * 4 + 3)) = some x_max ∧
        (fits_gint (F32.mul x_min (F32.ofNat w)) →
          d.x = (F32.mul x_min (F32.ofNat w)).trunc) ∧
        (fits_gint (F32.mul y_min (F32.ofNat h)) →
          d.y = (F32.mul y_min (F32.ofNat h)).trunc) ∧
        (fits_gint (F32.sub (F32.mul x_max (F32.ofNat w)) (F32.ofInt d.x)) →
          d.w = (F32.sub (F32.mul x_max (F32.ofNat w)) (F32.ofInt d.x)).trunc) ∧
        (fits_gint (F32.sub (F32.mul y_max (F32.ofNat h)) (F32.ofInt d.y)) →
          d.h = (F32.sub (F32.mul y_max (F32.ofNat h)) (F32.ofInt d.y)).trunc)) := by
  refine ⟨?_, extract_of_not_reached T self w h rmeta tmeta, ?_⟩
  · intro nm bm sm n hr
    exact ⟨hr.boxes_mapped, hr.scores_mapped,
      extract_eq_spec_detections T self w h rmeta tmeta nm bm sm n hr⟩
  · intro bm sm i d hd
    exact spec_detection_box T self w h tmeta bm sm i d hd

/-! ## Required tags, at the guard and at the call site -/

end SsdObjectDetector
